import Mathlib

/-!
Shallow embedding of the `physics-experiments` 2D physics core
(`Vector2`, `Shape`/`Circle`, `AABB`, `PhysicsBody`, `SpatialGrid`, `World`).

JavaScript floating-point numbers are modelled as real numbers.  Mutable
`PhysicsBody` objects are modelled by a store `ℤ → Body` keyed by the body's
`id` (ids are required to be unique); JS `Set`s (the world's body set and each
grid partition) are modelled as insertion-ordered duplicate-free lists, with
`Set.add` appending when absent and `Set.delete` erasing.  The `world!`
back-reference of a body is modelled by a `Bool` (`true` = bound to the world).
-/

namespace Phys

/-- 2D vector (JS `Vector2`). -/
structure Vector2 where
  x : ℝ
  y : ℝ

noncomputable def Vector2.dot (v w : Vector2) : ℝ := v.x * w.x + v.y * w.y

noncomputable def Vector2.length (v : Vector2) : ℝ := Real.sqrt (v.x * v.x + v.y * v.y)

/-- In-place `normalize` of `Vector2`: both components divided by the length
captured before the mutation. -/
noncomputable def Vector2.normalize (v : Vector2) : Vector2 := ⟨v.x / v.length, v.y / v.length⟩

/-- The shape taxonomy; only `Circle` exists in the repository. -/
inductive Shape where
  | circle (radius : ℝ)

/-- Axis-aligned bounding box. -/
structure AABB where
  min : Vector2
  max : Vector2

/-- The mutable state of a `PhysicsBody` (identity lives in the store key). -/
structure Body where
  position : Vector2
  velocity : Vector2
  world : Bool
  isSleeping : Bool
  idleTime : ℝ
  mass : ℝ
  invMass : ℝ
  shape : Shape
  friction : ℝ
  restitution : ℝ
  linearDrag : ℝ
  isStatic : Bool
  isSensor : Bool
  aabb : AABB
  isInGrid : Bool
  lastPairId : ℤ

/-- The `PhysicsBody` constructor: field initializers from the class body,
then `this.mass = mass` (which also sets `invMass = 1 / mass`) and
`this.shape = shape`. -/
noncomputable def mkBody (mass : ℝ) (shape : Shape) : Body :=
  { position := ⟨0, 0⟩, velocity := ⟨0, 0⟩, world := false, isSleeping := false,
    idleTime := 0, mass := mass, invMass := 1 / mass, shape := shape,
    friction := 0.1, restitution := 0.5, linearDrag := 0.1, isStatic := false,
    isSensor := false, aabb := ⟨⟨0, 0⟩, ⟨0, 0⟩⟩, isInGrid := false, lastPairId := -1 }

/-- `PhysicsBody.sleepTick(dt)`: `SLEEP_VELOCITY_THRESHOLD = 0.01`,
`SLEEP_TIME_THRESHOLD = 1`. -/
noncomputable def Body.sleepTick (dt : ℝ) (b : Body) : Body :=
  let b1 := if b.velocity.x * b.velocity.x + b.velocity.y * b.velocity.y < 0.01
    then { b with idleTime := b.idleTime + dt }
    else { b with idleTime := 0 }
  if b1.idleTime > 1 then { b1 with isSleeping := true } else b1

/-- `PhysicsBody.wakeUp()`. -/
def Body.wakeUp (b : Body) : Body := { b with isSleeping := false }

/-- `PhysicsBody.applyForce(force)`. -/
noncomputable def Body.applyForce (force : Vector2) (b : Body) : Body :=
  if b.isStatic then b
  else { b with velocity := ⟨b.velocity.x + force.x * b.invMass,
                             b.velocity.y + force.y * b.invMass⟩ }

/-- `PhysicsBody.integrate(dt)`; `gravity` is `this.world.gravity`. -/
noncomputable def Body.integrate (gravity : Vector2) (dt : ℝ) (b : Body) : Body :=
  if b.isStatic then b
  else
    let b1 := b.sleepTick dt
    if b1.isSleeping then b1
    else
      let vx := b1.velocity.x * (1 - b1.linearDrag * dt) + gravity.x * dt
      let vy := b1.velocity.y * (1 - b1.linearDrag * dt) + gravity.y * dt
      { b1 with velocity := ⟨vx, vy⟩,
                position := ⟨b1.position.x + vx * dt, b1.position.y + vy * dt⟩ }

/-- The fixed construction-time geometry of a `SpatialGrid`. -/
structure Grid where
  cellSize : ℝ
  width : ℕ
  height : ℕ

/-- A detected collision; `bodyA`/`bodyB` are body ids. -/
structure Contact where
  bodyA : ℤ
  bodyB : ℤ
  normal : Vector2
  penetration : ℝ
  point : Vector2

/-- The combined mutable state: the body store, the grid's partitions
(`width * height` insertion-ordered lists of body ids), the world's body set,
the per-frame buffers and gravity. -/
structure State where
  store : ℤ → Body
  partitions : List (List ℤ)
  worldBodies : List ℤ
  collisionPairs : List (ℤ × ℤ)
  contacts : List Contact
  gravity : Vector2

/-- Mutate the body object with id `i`. -/
def updateBody (σ : State) (i : ℤ) (f : Body → Body) : State :=
  { σ with store := fun j => if j = i then f (σ.store i) else σ.store j }

/-- `SpatialGrid.worldToCell(vec)` (the out-of-range `console.log` diagnostic
has no effect on the returned value and is not modelled). -/
noncomputable def worldToCell (g : Grid) (v : Vector2) : ℤ × ℤ :=
  (⌊v.x / g.cellSize⌋, ⌊v.y / g.cellSize⌋)

/-- The inclusive integer range `[a..b]` as a list (empty when `b < a`). -/
def intRange (a b : ℤ) : List ℤ :=
  (List.range (b + 1 - a).toNat).map (fun (i : ℕ) => a + (i : ℤ))

/-- `SpatialGrid.getCellsInAABB(aabb)`: row-major enumeration of the cells of
the box `[worldToCell min, worldToCell max]`, each cell index clamped into the
grid. -/
noncomputable def getCellsInAABB (g : Grid) (box : AABB) : List ℤ :=
  let mn := worldToCell g box.min
  let mx := worldToCell g box.max
  (intRange mn.2 mx.2).flatMap (fun y =>
    (intRange mn.1 mx.1).map (fun x =>
      max 0 (min ((g.width : ℤ) - 1) x) + max 0 (min ((g.height : ℤ) - 1) y) * (g.width : ℤ)))

/-- JS `Set.add`: append if not already a member. -/
def setAdd (l : List ℤ) (i : ℤ) : List ℤ := if i ∈ l then l else l ++ [i]

/-- Replace the partition at (clamped, hence nonnegative) cell index `c`. -/
def setPart (σ : State) (c : ℤ) (f : List ℤ → List ℤ) : State :=
  { σ with partitions := σ.partitions.set c.toNat (f (σ.partitions.getD c.toNat [])) }

/-- `SpatialGrid.addBody(body)`. -/
noncomputable def SpatialGrid.addBody (g : Grid) (i : ℤ) (σ : State) : State :=
  let cells := getCellsInAABB g ((σ.store i).aabb)
  let σ1 := cells.foldl (fun s c => setPart s c (fun l => setAdd l i)) σ
  updateBody σ1 i (fun b => { b with isInGrid := true })

/-- `SpatialGrid.removeBody(body)`. -/
noncomputable def SpatialGrid.removeBody (g : Grid) (i : ℤ) (σ : State) : State :=
  let cells := getCellsInAABB g ((σ.store i).aabb)
  let σ1 := cells.foldl (fun s c => setPart s c (fun l => l.erase i)) σ
  updateBody σ1 i (fun b => { b with isInGrid := false })

/-- `SpatialGrid.queryAABB(aabb)`: concatenation over covered cells (a body in
several covered cells is returned once per cell). -/
noncomputable def SpatialGrid.queryAABB (g : Grid) (σ : State) (box : AABB) : List ℤ :=
  (getCellsInAABB g box).flatMap (fun c => σ.partitions.getD c.toNat [])

/-- `SpatialGrid.generatePairs(bodies)`: reset `_internalLastPairId` and lazily
insert each body; then traverse all partitions, removing each non-sleeping
member before querying its AABB and emitting pairs deduplicated through
`_internalLastPairId`.  (Iterating a JS `Set` while deleting the current
element visits exactly the remaining members in insertion order; since only
the currently visited body is ever deleted from the partition being iterated,
the snapshot fold below is that iteration.) -/
noncomputable def SpatialGrid.generatePairs (g : Grid) (σ : State) (bodies : List ℤ) :
    State × List (ℤ × ℤ) :=
  let σ1 := bodies.foldl (fun s i =>
    let s := updateBody s i (fun b => { b with lastPairId := -1 })
    if (s.store i).isInGrid then s else SpatialGrid.addBody g i s) σ
  (List.range σ1.partitions.length).foldl (fun acc k =>
    (acc.1.partitions.getD k []).foldl (fun acc2 a =>
      if (acc2.1.store a).isSleeping then acc2
      else
        let s := SpatialGrid.removeBody g a acc2.1
        let results := SpatialGrid.queryAABB g s ((s.store a).aabb)
        results.foldl (fun acc3 b =>
          if (acc3.1.store b).lastPairId = a then acc3
          else (updateBody acc3.1 b (fun bb => { bb with lastPairId := a }), acc3.2 ++ [(a, b)]))
          (s, acc2.2)) acc) (σ1, [])

/-- `World.addBody(body)`: `body.world = this; this.bodies.add(body)`. -/
def World.addBody (i : ℤ) (σ : State) : State :=
  let σ1 := updateBody σ i (fun b => { b with world := true })
  { σ1 with worldBodies := setAdd σ1.worldBodies i }

/-- `World.removeBody(body)`: the source runs `body.world = this;
this.bodies.delete(body)` (the world reference is assigned, not cleared). -/
def World.removeBody (i : ℤ) (σ : State) : State :=
  let σ1 := updateBody σ i (fun b => { b with world := true })
  { σ1 with worldBodies := σ1.worldBodies.erase i }

/-- `World.stepBroadPhase(dt)`: refresh every circle body's AABB from
`position ± radius`, then store the grid's generated pairs. -/
noncomputable def stepBroadPhase (g : Grid) (σ : State) : State :=
  let σ1 := σ.worldBodies.foldl (fun s i =>
    match (s.store i).shape with
    | .circle r => updateBody s i (fun b =>
        { b with aabb := ⟨⟨b.position.x - r, b.position.y - r⟩,
                          ⟨b.position.x + r, b.position.y + r⟩⟩ })) σ
  let res := SpatialGrid.generatePairs g σ1 σ1.worldBodies
  { res.1 with collisionPairs := res.2 }

/-- One candidate pair of `World.stepNarrowPhase(dt)`: the circle-circle test,
contact production and the `wakeUp` calls. -/
noncomputable def narrowPair (σ : State) (pr : ℤ × ℤ) : State :=
  match (σ.store pr.1).shape, (σ.store pr.2).shape with
  | .circle rA, .circle rB =>
    let pA := (σ.store pr.1).position
    let pB := (σ.store pr.2).position
    let distance := Real.sqrt ((pA.x - pB.x) ^ 2 + (pA.y - pB.y) ^ 2)
    if distance < rA + rB then
      let normal := Vector2.normalize ⟨pB.x - pA.x, pB.y - pA.y⟩
      let σ1 := { σ with contacts := σ.contacts ++
        [⟨pr.1, pr.2, normal, rA + rB - distance,
          ⟨pA.x + normal.x * rA, pA.y + normal.y * rA⟩⟩] }
      let σ2 := updateBody σ1 pr.1 Body.wakeUp
      updateBody σ2 pr.2 Body.wakeUp
    else σ

/-- `World.stepNarrowPhase(dt)`. -/
noncomputable def stepNarrowPhase (σ : State) : State := σ.collisionPairs.foldl narrowPair σ

/-- `World.stepResolveStaticCollisions(dt)`: the empty extension hook. -/
def stepResolveStaticCollisions (σ : State) : State := σ

/-- The normal-impulse block of `stepResolveCollisions`: apply `∓ impulse *
invMass` to each non-static body (`impulse` was computed before either write,
and each body's raw `invMass` is read at its own write, as in the source). -/
noncomputable def applyImpulse (a b : ℤ) (impulse : Vector2) (σ : State) : State :=
  let σa := if (σ.store a).isStatic then σ else
    updateBody σ a (fun bb => { bb with velocity :=
      ⟨bb.velocity.x - impulse.x * bb.invMass, bb.velocity.y - impulse.y * bb.invMass⟩ })
  if (σa.store b).isStatic then σa else
    updateBody σa b (fun bb => { bb with velocity :=
      ⟨bb.velocity.x + impulse.x * bb.invMass, bb.velocity.y + impulse.y * bb.invMass⟩ })

/-- The friction-impulse application of `stepResolveCollisions`, using the
effective inverse masses. -/
noncomputable def applyFrictionImpulse (a b : ℤ) (tangentImpulse : Vector2)
    (invMassA invMassB : ℝ) (σ : State) : State :=
  let σc := if (σ.store a).isStatic then σ else
    updateBody σ a (fun bb => { bb with velocity :=
      ⟨bb.velocity.x - tangentImpulse.x * invMassA, bb.velocity.y - tangentImpulse.y * invMassA⟩ })
  if (σc.store b).isStatic then σc else
    updateBody σc b (fun bb => { bb with velocity :=
      ⟨bb.velocity.x + tangentImpulse.x * invMassB, bb.velocity.y + tangentImpulse.y * invMassB⟩ })

/-- The "set velocity to 0 if it is too small" block of
`stepResolveCollisions`, applied per component to one body, with no static
guard (exactly as in the source). -/
noncomputable def snapSmall (i : ℤ) (σ : State) : State :=
  updateBody σ i (fun bb => { bb with velocity :=
    ⟨if |bb.velocity.x| < 0.01 then 0 else bb.velocity.x,
     if |bb.velocity.y| < 0.01 then 0 else bb.velocity.y⟩ })

/-- The friction block of `stepResolveCollisions`: tangent from the
pre-impulse relative velocity `rv`, Coulomb clamp by **bodyA's** friction
(read from the current state), impulse application and the small-velocity
snap — all skipped when `|jt| ≤ 0.01`. -/
noncomputable def applyFriction (a b : ℤ) (invMassA invMassB j : ℝ) (rv : Vector2)
    (velAlongNormal : ℝ) (normal : Vector2) (σ : State) : State :=
  let tangent := Vector2.normalize
    ⟨rv.x - normal.x * velAlongNormal, rv.y - normal.y * velAlongNormal⟩
  let jt := (-(rv.dot tangent)) / (invMassA + invMassB)
  if |jt| > 0.01 then
    let tangentImpulse : Vector2 :=
      if |jt| < j * (σ.store a).friction then ⟨tangent.x * jt, tangent.y * jt⟩
      else ⟨tangent.x * (-j) * (σ.store a).friction, tangent.y * (-j) * (σ.store a).friction⟩
    snapSmall b (snapSmall a (applyFrictionImpulse a b tangentImpulse invMassA invMassB σ))
  else σ

/-- The positional-correction block of `stepResolveCollisions`
(`percent = 0.2`, `slop = 0.01`), with effective inverse masses. -/
noncomputable def applyCorrection (a b : ℤ) (invMassA invMassB : ℝ) (normal : Vector2)
    (penetration : ℝ) (σ : State) : State :=
  let correction := (max (penetration - 0.01) 0 / (invMassA + invMassB)) * 0.2
  let cv : Vector2 := ⟨normal.x * correction, normal.y * correction⟩
  let σ2 := if (σ.store a).isStatic then σ else
    updateBody σ a (fun bb => { bb with position :=
      ⟨bb.position.x - cv.x * invMassA, bb.position.y - cv.y * invMassA⟩ })
  if (σ2.store b).isStatic then σ2 else
    updateBody σ2 b (fun bb => { bb with position :=
      ⟨bb.position.x + cv.x * invMassB, bb.position.y + cv.y * invMassB⟩ })

/-- One contact of `World.stepResolveCollisions(dt)`: skip when both bodies
are static; otherwise sequential impulse and friction (only when the bodies
approach along the normal), then positional correction.  All derived
quantities (`rv`, `velAlongNormal`, `e`, `j`, `impulse`) are computed from
the state at the points the source reads them. -/
noncomputable def resolveContact (σ : State) (c : Contact) : State :=
  let a := c.bodyA
  let b := c.bodyB
  let invMassA : ℝ := if (σ.store a).isStatic then 0 else (σ.store a).invMass
  let invMassB : ℝ := if (σ.store b).isStatic then 0 else (σ.store b).invMass
  if (σ.store a).isStatic && (σ.store b).isStatic then σ
  else
    let rv : Vector2 := ⟨(σ.store b).velocity.x - (σ.store a).velocity.x,
                         (σ.store b).velocity.y - (σ.store a).velocity.y⟩
    let velAlongNormal := rv.dot c.normal
    let σ1 :=
      if velAlongNormal < 0 then
        let e := min (σ.store a).restitution (σ.store b).restitution
        let j := (-(1 + e) * velAlongNormal) / (invMassA + invMassB)
        let impulse : Vector2 := ⟨c.normal.x * j, c.normal.y * j⟩
        applyFriction a b invMassA invMassB j rv velAlongNormal c.normal
          (applyImpulse a b impulse σ)
      else σ
    applyCorrection a b invMassA invMassB c.normal c.penetration σ1

/-- `World.stepResolveCollisions(dt)`. -/
noncomputable def stepResolveCollisions (σ : State) : State := σ.contacts.foldl resolveContact σ

/-- `World.stepIntegrate(dt)`. -/
noncomputable def stepIntegrate (dt : ℝ) (σ : State) : State :=
  σ.worldBodies.foldl (fun s i => updateBody s i (Body.integrate s.gravity dt)) σ

/-- `World.postStep()`. -/
def postStep (σ : State) : State := { σ with collisionPairs := [], contacts := [] }

/-- `World.step(dt)`: the fixed five-phase pipeline plus post-step. -/
noncomputable def step (g : Grid) (dt : ℝ) (σ : State) : State :=
  postStep (stepIntegrate dt (stepResolveCollisions (stepResolveStaticCollisions
    (stepNarrowPhase (stepBroadPhase g σ)))))

/-- `n` consecutive `World.step(dt)` calls. -/
noncomputable def stepN (g : Grid) (dt : ℝ) : ℕ → State → State
  | 0, σ => σ
  | n + 1, σ => stepN g dt n (step g dt σ)

/-! ## Basic lemmas -/

@[simp]
theorem updateBody_store (σ : State) (i : ℤ) (f : Body → Body) (j : ℤ) :
    (updateBody σ i f).store j = if j = i then f (σ.store i) else σ.store j := rfl

@[simp]
theorem updateBody_partitions (σ : State) (i : ℤ) (f : Body → Body) :
    (updateBody σ i f).partitions = σ.partitions := rfl

@[simp]
theorem updateBody_worldBodies (σ : State) (i : ℤ) (f : Body → Body) :
    (updateBody σ i f).worldBodies = σ.worldBodies := rfl

@[simp]
theorem updateBody_gravity (σ : State) (i : ℤ) (f : Body → Body) :
    (updateBody σ i f).gravity = σ.gravity := rfl

@[simp]
theorem updateBody_contacts (σ : State) (i : ℤ) (f : Body → Body) :
    (updateBody σ i f).contacts = σ.contacts := rfl

@[simp]
theorem updateBody_collisionPairs (σ : State) (i : ℤ) (f : Body → Body) :
    (updateBody σ i f).collisionPairs = σ.collisionPairs := rfl

/-- A sequence of `integrate` / `sleepTick` calls on one body. -/
inductive BodyOp where
  | integ (gravity : Vector2) (dt : ℝ)
  | stick (dt : ℝ)

/-- Apply one `integrate` / `sleepTick` call. -/
noncomputable def applyOp (op : BodyOp) (b : Body) : Body :=
  match op with
  | .integ gr dt => b.integrate gr dt
  | .stick dt => b.sleepTick dt

/-- Run a sequence of `integrate` / `sleepTick` calls on one body. -/
noncomputable def runOps (l : List BodyOp) (b : Body) : Body :=
  l.foldl (fun b op => applyOp op b) b

theorem sleepTick_keeps_sleeping (dt : ℝ) (b : Body) (h : b.isSleeping = true) :
    (b.sleepTick dt).isSleeping = true := by
  unfold Body.sleepTick
  dsimp only
  split <;> split <;> simp_all

theorem integrate_keeps_sleeping (gr : Vector2) (dt : ℝ) (b : Body)
    (h : b.isSleeping = true) : (b.integrate gr dt).isSleeping = true := by
  unfold Body.integrate
  dsimp only
  split
  · exact h
  · have h1 := sleepTick_keeps_sleeping dt b h
    simp [h1]

theorem sleepTick_idleTime (dt : ℝ) (b : Body) :
    (b.sleepTick dt).idleTime =
      if b.velocity.x * b.velocity.x + b.velocity.y * b.velocity.y < 0.01
      then b.idleTime + dt else 0 := by
  unfold Body.sleepTick
  dsimp only
  split <;> split <;> simp_all

theorem sleepTick_isSleeping_iff (dt : ℝ) (b : Body) :
    ((b.sleepTick dt).isSleeping = true ↔
      (b.isSleeping = true ∨ (b.sleepTick dt).idleTime > 1)) := by
  unfold Body.sleepTick
  dsimp only
  split <;> split <;> simp_all

theorem sleepTick_velocity (dt : ℝ) (b : Body) : (b.sleepTick dt).velocity = b.velocity := by
  unfold Body.sleepTick
  dsimp only
  split <;> split <;> rfl

theorem sleepTick_position (dt : ℝ) (b : Body) : (b.sleepTick dt).position = b.position := by
  unfold Body.sleepTick
  dsimp only
  split <;> split <;> rfl

theorem sleepTick_isStatic (dt : ℝ) (b : Body) : (b.sleepTick dt).isStatic = b.isStatic := by
  unfold Body.sleepTick
  dsimp only
  split <;> split <;> rfl

/-- `integrate` on a non-static body: the sleep check runs first, and the
drag/gravity/position updates run only when the body is awake afterwards. -/
theorem integrate_nonstatic (gravity : Vector2) (dt : ℝ) (b : Body)
    (hns : b.isStatic = false) :
    b.integrate gravity dt =
      if (b.sleepTick dt).isSleeping = true then b.sleepTick dt
      else
        let b1 := b.sleepTick dt
        let vx := b1.velocity.x * (1 - b1.linearDrag * dt) + gravity.x * dt
        let vy := b1.velocity.y * (1 - b1.linearDrag * dt) + gravity.y * dt
        { b1 with velocity := ⟨vx, vy⟩,
                  position := ⟨b1.position.x + vx * dt, b1.position.y + vy * dt⟩ } := by
  unfold Body.integrate
  simp [hns]

/-- C5: for every non-static body and every `dt`, `integrate(dt)` first runs
the sleep check: the idle time accumulates by `dt` when the squared velocity
is below `0.01` and resets to `0` otherwise; the body is sleeping after the
call exactly when it was already sleeping or the resulting idle time exceeds
`1.0`; when it is sleeping after the sleep check, `integrate` returns the
result of the sleep check itself, so drag, gravity and the position update do
not run; and no sequence of `integrate`/`sleepTick` calls ever changes
`isSleeping` from `true` to `false` — only `wakeUp` does that. -/
theorem integrate_idleTime (gravity : Vector2) (dt : ℝ) (b : Body)
    (hns : b.isStatic = false) :
    (b.integrate gravity dt).idleTime = (b.sleepTick dt).idleTime := by
  rw [integrate_nonstatic gravity dt b hns]
  split <;> rfl

theorem integrate_isSleeping (gravity : Vector2) (dt : ℝ) (b : Body)
    (hns : b.isStatic = false) :
    (b.integrate gravity dt).isSleeping = (b.sleepTick dt).isSleeping := by
  rw [integrate_nonstatic gravity dt b hns]
  split <;> rfl

theorem applyOp_keeps_sleeping (op : BodyOp) (b : Body) (h : b.isSleeping = true) :
    (applyOp op b).isSleeping = true := by
  cases op with
  | integ gr dt => exact integrate_keeps_sleeping gr dt b h
  | stick dt => exact sleepTick_keeps_sleeping dt b h

/-- C5: for every non-static body and every `dt`, `integrate(dt)` first runs
the sleep check: the idle time accumulates by `dt` when the squared velocity
is below `0.01` and resets to `0` otherwise; the body is sleeping after the
call exactly when it was already sleeping or the resulting idle time exceeds
`1.0`; when it is sleeping after the sleep check, `integrate` returns the
result of the sleep check itself, so drag, gravity and the position update do
not run; and no sequence of `integrate`/`sleepTick` calls ever changes
`isSleeping` from `true` to `false` — only `wakeUp` does that. -/
theorem C5_integrate_sleep_machine (gravity : Vector2) (dt : ℝ) (b : Body)
    (hns : b.isStatic = false) :
    (b.integrate gravity dt).idleTime =
      (if b.velocity.x * b.velocity.x + b.velocity.y * b.velocity.y < 0.01
       then b.idleTime + dt else 0) ∧
    ((b.integrate gravity dt).isSleeping = true ↔
      (b.isSleeping = true ∨ (b.integrate gravity dt).idleTime > 1)) ∧
    ((b.sleepTick dt).isSleeping = true →
      b.integrate gravity dt = b.sleepTick dt ∧
      (b.integrate gravity dt).velocity = b.velocity ∧
      (b.integrate gravity dt).position = b.position) ∧
    (∀ (ops : List BodyOp) (b' : Body), b'.isSleeping = true →
      (runOps ops b').isSleeping = true) := by
  refine ⟨?_, ?_, ?_, ?_⟩
  · rw [integrate_idleTime gravity dt b hns, sleepTick_idleTime]
  · rw [integrate_isSleeping gravity dt b hns, integrate_idleTime gravity dt b hns]
    exact sleepTick_isSleeping_iff dt b
  · intro hsl
    have he : b.integrate gravity dt = b.sleepTick dt := by
      rw [integrate_nonstatic gravity dt b hns, if_pos hsl]
    exact ⟨he, by rw [he, sleepTick_velocity], by rw [he, sleepTick_position]⟩
  · intro ops
    induction ops with
    | nil => intro b' h; simpa [runOps] using h
    | cons op rest ih =>
      intro b' h
      have hc : runOps (op :: rest) b' = runOps rest (applyOp op b') := rfl
      rw [hc]
      exact ih (applyOp op b') (applyOp_keeps_sleeping op b' h)

/-- C5 witness: a concrete non-static body on which the properties of
`C5_integrate_sleep_machine` are instantiated. -/
theorem C5_integrate_sleep_machine_witness :
    (({ mkBody 1 (Shape.circle 1) with velocity := ⟨0.05, 0.05⟩, idleTime := 0.9 } : Body).integrate
        ⟨0, 0⟩ 0.5).idleTime =
      (if (0.05 : ℝ) * 0.05 + 0.05 * 0.05 < 0.01 then (0.9 : ℝ) + 0.5 else 0) := by
  exact (C5_integrate_sleep_machine ⟨0, 0⟩ 0.5
    ({ mkBody 1 (Shape.circle 1) with velocity := ⟨0.05, 0.05⟩, idleTime := 0.9 }) (by rfl)).1

/-- C9: `wakeUp()` clears `isSleeping` but does not reset `idleTime`.  Hence a
non-static body that fell asleep through `idleTime > 1.0`, once woken by
`wakeUp()`, goes straight back to `Sleeping` during the next `integrate(dt)`
call (`dt > 0`) if its squared velocity is still below `0.01`, and that call
performs no drag, gravity or position update. -/
theorem C9_wake_then_resleep (gravity : Vector2) (dt : ℝ) (b : Body)
    (hns : b.isStatic = false) (hidle : b.idleTime > 1)
    (hv : b.velocity.x * b.velocity.x + b.velocity.y * b.velocity.y < 0.01)
    (hdt : 0 < dt) :
    b.wakeUp.isSleeping = false ∧
    b.wakeUp.idleTime = b.idleTime ∧
    (b.wakeUp.integrate gravity dt).isSleeping = true ∧
    b.wakeUp.integrate gravity dt = b.wakeUp.sleepTick dt ∧
    (b.wakeUp.integrate gravity dt).velocity = b.velocity ∧
    (b.wakeUp.integrate gravity dt).position = b.position := by
  have hns' : b.wakeUp.isStatic = false := hns
  have hvel : b.wakeUp.velocity = b.velocity := rfl
  have hsl : (b.wakeUp.sleepTick dt).isSleeping = true := by
    unfold Body.wakeUp Body.sleepTick
    dsimp only
    rw [if_pos hv, if_pos (by dsimp only; linarith)]
  have h3 := (C5_integrate_sleep_machine gravity dt b.wakeUp hns').2.2.1 hsl
  refine ⟨rfl, rfl, ?_, h3.1, h3.2.1, h3.2.2⟩
  rw [h3.1]
  exact hsl

/-- C9 witness: a concrete sleeping body with slow velocity and accumulated
idle time, woken and re-integrated. -/
theorem C9_wake_then_resleep_witness :
    (({ mkBody 1 (Shape.circle 1) with isSleeping := true, idleTime := 1.5, velocity := ⟨0.05, 0.05⟩ } : Body).wakeUp.integrate ⟨0, -9.8⟩ 0.1).isSleeping = true := by
  exact (C9_wake_then_resleep ⟨0, -9.8⟩ 0.1
    ({ mkBody 1 (Shape.circle 1) with isSleeping := true, idleTime := 1.5, velocity := ⟨0.05, 0.05⟩ }) (by rfl) (by norm_num) (by norm_num) (by norm_num)).2.2.1

@[simp]
theorem wakeUp_isSleeping (b : Body) : b.wakeUp.isSleeping = false := rfl

theorem sqrt_225 : Real.sqrt 2.25 = 1.5 := by
  rw [show (2.25 : ℝ) = 1.5 ^ 2 by norm_num, Real.sqrt_sq (by norm_num)]

theorem sqrt_nine : Real.sqrt 9 = 3 := by
  rw [show (9 : ℝ) = 3 ^ 2 by norm_num, Real.sqrt_sq (by norm_num)]

theorem sqrt_four : Real.sqrt 4 = 2 := by
  rw [show (4 : ℝ) = 2 ^ 2 by norm_num, Real.sqrt_sq (by norm_num)]

/-- Concrete narrow-phase scenario: two unit circles centred at `(0,0)` and
`(1.5,0)`, with the candidate pair `(1, 2)` pending. -/
noncomputable def c3State : State :=
  { store := fun i => if i = 1 then { mkBody 1 (Shape.circle 1) with position := ⟨0, 0⟩ }
      else { mkBody 1 (Shape.circle 1) with position := ⟨1.5, 0⟩ },
    partitions := [[]], worldBodies := [1, 2], collisionPairs := [(1, 2)],
    contacts := [], gravity := ⟨0, 0⟩ }

/-- C3: for a candidate pair of circle bodies, the narrow phase produces a
contact exactly when the centre distance is strictly below the radius sum;
the contact carries `normal = normalize(posB - posA)`,
`penetration = rA + rB - distance` and `point = posA + normal * rA`, and both
bodies are woken.  In particular two unit circles at `(0,0)` and `(1.5,0)`
yield penetration `0.5` and normal `(1,0)`. -/
theorem C3_narrow_circle_contact (σ : State) (a b : ℤ) (rA rB : ℝ)
    (ha : (σ.store a).shape = Shape.circle rA) (hb : (σ.store b).shape = Shape.circle rB) :
    (Real.sqrt (((σ.store a).position.x - (σ.store b).position.x) ^ 2 +
        ((σ.store a).position.y - (σ.store b).position.y) ^ 2) < rA + rB →
      ((narrowPair σ (a, b)).contacts = σ.contacts ++
        [⟨a, b,
          Vector2.normalize ⟨(σ.store b).position.x - (σ.store a).position.x,
                             (σ.store b).position.y - (σ.store a).position.y⟩,
          rA + rB - Real.sqrt (((σ.store a).position.x - (σ.store b).position.x) ^ 2 +
            ((σ.store a).position.y - (σ.store b).position.y) ^ 2),
          ⟨(σ.store a).position.x +
              (Vector2.normalize ⟨(σ.store b).position.x - (σ.store a).position.x,
                (σ.store b).position.y - (σ.store a).position.y⟩).x * rA,
            (σ.store a).position.y +
              (Vector2.normalize ⟨(σ.store b).position.x - (σ.store a).position.x,
                (σ.store b).position.y - (σ.store a).position.y⟩).y * rA⟩⟩]) ∧
        ((narrowPair σ (a, b)).store a).isSleeping = false ∧
        ((narrowPair σ (a, b)).store b).isSleeping = false) ∧
    (¬ Real.sqrt (((σ.store a).position.x - (σ.store b).position.x) ^ 2 +
        ((σ.store a).position.y - (σ.store b).position.y) ^ 2) < rA + rB →
      narrowPair σ (a, b) = σ) ∧
    ((narrowPair σ (a, b)).contacts ≠ σ.contacts ↔
      Real.sqrt (((σ.store a).position.x - (σ.store b).position.x) ^ 2 +
        ((σ.store a).position.y - (σ.store b).position.y) ^ 2) < rA + rB) ∧
    (narrowPair c3State (1, 2)).contacts = [⟨1, 2, ⟨1, 0⟩, 0.5, ⟨1, 0⟩⟩] := by
  have hmain : ∀ (h : Real.sqrt (((σ.store a).position.x - (σ.store b).position.x) ^ 2 +
      ((σ.store a).position.y - (σ.store b).position.y) ^ 2) < rA + rB),
      narrowPair σ (a, b) =
        (updateBody (updateBody ({ σ with contacts := σ.contacts ++
          [⟨a, b,
            Vector2.normalize ⟨(σ.store b).position.x - (σ.store a).position.x,
                               (σ.store b).position.y - (σ.store a).position.y⟩,
            rA + rB - Real.sqrt (((σ.store a).position.x - (σ.store b).position.x) ^ 2 +
              ((σ.store a).position.y - (σ.store b).position.y) ^ 2),
            ⟨(σ.store a).position.x +
                (Vector2.normalize ⟨(σ.store b).position.x - (σ.store a).position.x,
                  (σ.store b).position.y - (σ.store a).position.y⟩).x * rA,
              (σ.store a).position.y +
                (Vector2.normalize ⟨(σ.store b).position.x - (σ.store a).position.x,
                  (σ.store b).position.y - (σ.store a).position.y⟩).y * rA⟩⟩] }) a Body.wakeUp)
          b Body.wakeUp) := by
    intro h
    unfold narrowPair
    rw [ha, hb]
    dsimp only
    rw [if_pos h]
  have hmiss : ∀ (h : ¬ Real.sqrt (((σ.store a).position.x - (σ.store b).position.x) ^ 2 +
      ((σ.store a).position.y - (σ.store b).position.y) ^ 2) < rA + rB),
      narrowPair σ (a, b) = σ := by
    intro h
    unfold narrowPair
    rw [ha, hb]
    dsimp only
    rw [if_neg h]
  refine ⟨?_, hmiss, ?_, ?_⟩
  · intro h
    rw [hmain h]
    refine ⟨rfl, ?_, ?_⟩ <;> simp [updateBody_store] <;> split <;> simp
  · constructor
    · intro hne
      by_contra h
      exact hne (by rw [hmiss h])
    · intro h
      rw [hmain h]
      intro heq
      have := congrArg List.length heq
      simp only [updateBody_contacts, List.length_append, List.length_singleton] at this
      omega
  · unfold narrowPair c3State
    norm_num [Vector2.normalize, Vector2.length, sqrt_225, sqrt_nine, sqrt_four,
      Body.wakeUp, mkBody]

/-- C3 witness: the general circle-circle narrow-phase theorem instantiated on
the concrete two-circle scenario. -/
theorem C3_narrow_circle_contact_witness :
    (narrowPair c3State (1, 2)).contacts = [⟨1, 2, ⟨1, 0⟩, 0.5, ⟨1, 0⟩⟩] := by
  exact (C3_narrow_circle_contact c3State 1 2 1 1 (by rfl) (by rfl)).2.2.2

/-- C4: per contact, the dynamic resolver skips the contact entirely when both
bodies are static; otherwise, when the relative velocity along the contact
normal is nonnegative, the velocity impulse and friction steps are skipped
(no velocity changes at all) but positional correction still runs:
`correction = max(penetration - 0.01, 0) / (invMassA + invMassB) * 0.2` with
effective inverse masses (`0` for static bodies), moving a non-static `A`
against the normal and a non-static `B` along it, each scaled by its own
inverse mass; no other body is touched. -/
theorem C4_resolve_both_static_and_separating (σ : State) (c : Contact)
    (hab : c.bodyA ≠ c.bodyB) :
    ((σ.store c.bodyA).isStatic = true → (σ.store c.bodyB).isStatic = true →
      resolveContact σ c = σ) ∧
    (¬((σ.store c.bodyA).isStatic = true ∧ (σ.store c.bodyB).isStatic = true) →
      0 ≤ ((σ.store c.bodyB).velocity.x - (σ.store c.bodyA).velocity.x) * c.normal.x +
          ((σ.store c.bodyB).velocity.y - (σ.store c.bodyA).velocity.y) * c.normal.y →
      (∀ j : ℤ, ((resolveContact σ c).store j).velocity = (σ.store j).velocity) ∧
      (∀ j : ℤ, j ≠ c.bodyA → j ≠ c.bodyB → (resolveContact σ c).store j = σ.store j) ∧
      (let imA : ℝ := if (σ.store c.bodyA).isStatic = true then 0 else (σ.store c.bodyA).invMass
       let imB : ℝ := if (σ.store c.bodyB).isStatic = true then 0 else (σ.store c.bodyB).invMass
       let correction : ℝ := (max (c.penetration - 0.01) 0 / (imA + imB)) * 0.2
       ((resolveContact σ c).store c.bodyA).position =
         (if (σ.store c.bodyA).isStatic = true then (σ.store c.bodyA).position else
           ⟨(σ.store c.bodyA).position.x - c.normal.x * correction * imA,
            (σ.store c.bodyA).position.y - c.normal.y * correction * imA⟩) ∧
       ((resolveContact σ c).store c.bodyB).position =
         (if (σ.store c.bodyB).isStatic = true then (σ.store c.bodyB).position else
           ⟨(σ.store c.bodyB).position.x + c.normal.x * correction * imB,
            (σ.store c.bodyB).position.y + c.normal.y * correction * imB⟩))) := by
  constructor
  · intro hsa hsb
    unfold resolveContact
    dsimp only
    rw [hsa, hsb]
    rfl
  · intro hns hv
    have hba : c.bodyB ≠ c.bodyA := Ne.symm hab
    have hvel : ¬(((σ.store c.bodyB).velocity.x - (σ.store c.bodyA).velocity.x) * c.normal.x +
        ((σ.store c.bodyB).velocity.y - (σ.store c.bodyA).velocity.y) * c.normal.y < 0) :=
      not_lt.mpr hv
    have hbb : ((σ.store c.bodyA).isStatic && (σ.store c.bodyB).isStatic) = false := by
      rcases Bool.eq_false_or_eq_true (σ.store c.bodyA).isStatic with h1 | h1 <;>
        rcases Bool.eq_false_or_eq_true (σ.store c.bodyB).isStatic with h2 | h2 <;>
        simp [h1, h2] at hns ⊢
    unfold resolveContact
    dsimp only [Vector2.dot]
    rw [if_neg (by simp [hbb])]
    rw [if_neg hvel]
    unfold applyCorrection
    dsimp only
    refine ⟨?_, ?_, ?_, ?_⟩
    · intro j
      by_cases hsa : (σ.store c.bodyA).isStatic = true <;>
        by_cases hsb : (σ.store c.bodyB).isStatic = true <;>
        by_cases hj1 : j = c.bodyA <;>
        by_cases hj2 : j = c.bodyB <;>
        simp_all [updateBody_store]
    · intro j hja hjb
      by_cases hsa : (σ.store c.bodyA).isStatic = true <;>
        by_cases hsb : (σ.store c.bodyB).isStatic = true <;>
        simp_all [updateBody_store]
    · by_cases hsa : (σ.store c.bodyA).isStatic = true <;>
        by_cases hsb : (σ.store c.bodyB).isStatic = true <;>
        simp_all [updateBody_store]
    · by_cases hsa : (σ.store c.bodyA).isStatic = true <;>
        by_cases hsb : (σ.store c.bodyB).isStatic = true <;>
        simp_all [updateBody_store]

/-! ## Grid fold machinery -/

theorem mem_setAdd (l : List ℤ) (i j : ℤ) : j ∈ setAdd l i ↔ (j ∈ l ∨ j = i) := by
  unfold setAdd
  split
  · rename_i h
    constructor
    · exact Or.inl
    · rintro (h2 | rfl)
      · exact h2
      · exact h
  · simp

theorem nodup_setAdd (l : List ℤ) (i : ℤ) (h : l.Nodup) : (setAdd l i).Nodup := by
  unfold setAdd
  split
  · exact h
  · rename_i hni
    simp [List.nodup_append, h, hni]

theorem getD_set_self (P : List (List ℤ)) (n : ℕ) (l : List ℤ) (hn : n < P.length) :
    (P.set n l).getD n [] = l := by
  simp [List.getD, List.getElem?_set, hn]

theorem getD_set_ne (P : List (List ℤ)) (n m : ℕ) (l : List ℤ) (h : m ≠ n) :
    (P.set n l).getD m [] = P.getD m [] := by
  rw [List.getD, List.getD, List.get?_set_ne _ _ (Ne.symm h)]

/-- The partitions-level effect of `SpatialGrid.addBody`'s cell loop. -/
def addFold (i : ℤ) (P : List (List ℤ)) (cs : List ℤ) : List (List ℤ) :=
  cs.foldl (fun ps c => ps.set c.toNat (setAdd (ps.getD c.toNat []) i)) P

/-- The partitions-level effect of `SpatialGrid.removeBody`'s cell loop. -/
def eraseFold (i : ℤ) (P : List (List ℤ)) (cs : List ℤ) : List (List ℤ) :=
  cs.foldl (fun ps c => ps.set c.toNat ((ps.getD c.toNat []).erase i)) P

theorem foldl_setPart_partitions (cs : List ℤ) (f : List ℤ → List ℤ) (σ : State) :
    (cs.foldl (fun s c => setPart s c f) σ).partitions =
      cs.foldl (fun ps c => ps.set c.toNat (f (ps.getD c.toNat []))) σ.partitions := by
  induction cs generalizing σ with
  | nil => rfl
  | cons c cs ih => exact ih (setPart σ c f)

theorem foldl_setPart_store (cs : List ℤ) (f : List ℤ → List ℤ) (σ : State) :
    (cs.foldl (fun s c => setPart s c f) σ).store = σ.store := by
  induction cs generalizing σ with
  | nil => rfl
  | cons c cs ih => exact ih (setPart σ c f)

theorem addFold_length (i : ℤ) (cs : List ℤ) (P : List (List ℤ)) :
    (addFold i P cs).length = P.length := by
  induction cs generalizing P with
  | nil => rfl
  | cons c cs ih =>
    unfold addFold at ih ⊢
    rw [List.foldl_cons, ih, List.length_set]

theorem eraseFold_length (i : ℤ) (cs : List ℤ) (P : List (List ℤ)) :
    (eraseFold i P cs).length = P.length := by
  induction cs generalizing P with
  | nil => rfl
  | cons c cs ih =>
    unfold eraseFold at ih ⊢
    rw [List.foldl_cons, ih, List.length_set]

theorem mem_addFold (i j : ℤ) (cs : List ℤ) (P : List (List ℤ)) (p : ℕ)
    (hin : ∀ c ∈ cs, 0 ≤ c ∧ c.toNat < P.length) :
    j ∈ (addFold i P cs).getD p [] ↔ (j ∈ P.getD p [] ∨ (j = i ∧ (p : ℤ) ∈ cs)) := by
  induction cs generalizing P with
  | nil => simp [addFold]
  | cons c cs ih =>
    have hc := hin c (by simp)
    have hstep : addFold i P (c :: cs) =
        addFold i (P.set c.toNat (setAdd (P.getD c.toNat []) i)) cs := rfl
    rw [hstep, ih _ (fun c' hc' => by
      rw [List.length_set]
      exact hin c' (List.mem_cons_of_mem _ hc'))]
    by_cases hpc : (p : ℤ) = c
    · have hp : p = c.toNat := by omega
      have hgs : (P.set c.toNat (setAdd (P.getD c.toNat []) i)).getD p [] =
          setAdd (P.getD p []) i := by
        rw [hp]
        exact getD_set_self _ _ _ hc.2
      rw [hgs, mem_setAdd]
      constructor
      · rintro ((h | h) | ⟨h, _⟩)
        · exact Or.inl h
        · exact Or.inr ⟨h, by rw [hpc]; exact List.mem_cons_self _ _⟩
        · exact Or.inr ⟨h, by rw [hpc]; exact List.mem_cons_self _ _⟩
      · rintro (h | ⟨rfl, _⟩)
        · exact Or.inl (Or.inl h)
        · exact Or.inl (Or.inr rfl)
    · have hp : p ≠ c.toNat := by omega
      rw [getD_set_ne _ _ _ _ hp]
      constructor
      · rintro (h | ⟨rfl, h⟩)
        · exact Or.inl h
        · exact Or.inr ⟨rfl, List.mem_cons_of_mem _ h⟩
      · rintro (h | ⟨rfl, h⟩)
        · exact Or.inl h
        · rcases List.mem_cons.mp h with h' | h'
          · exact absurd h' hpc
          · exact Or.inr ⟨rfl, h'⟩

theorem nodup_addFold (i : ℤ) (cs : List ℤ) (P : List (List ℤ))
    (hnd : ∀ q : ℕ, (P.getD q []).Nodup) :
    ∀ q : ℕ, ((addFold i P cs).getD q []).Nodup := by
  induction cs generalizing P with
  | nil => exact hnd
  | cons c cs ih =>
    have hstep : addFold i P (c :: cs) =
        addFold i (P.set c.toNat (setAdd (P.getD c.toNat []) i)) cs := rfl
    rw [hstep]
    refine ih _ (fun q => ?_)
    by_cases hr : c.toNat < P.length
    · by_cases hq : q = c.toNat
      · rw [hq, getD_set_self _ _ _ hr]
        exact nodup_setAdd _ _ (hnd _)
      · rw [getD_set_ne _ _ _ _ hq]
        exact hnd q
    · rw [List.set_eq_of_length_le (le_of_not_lt hr)]
      exact hnd q

theorem nodup_eraseFold (i : ℤ) (cs : List ℤ) (P : List (List ℤ))
    (hnd : ∀ q : ℕ, (P.getD q []).Nodup) :
    ∀ q : ℕ, ((eraseFold i P cs).getD q []).Nodup := by
  induction cs generalizing P with
  | nil => exact hnd
  | cons c cs ih =>
    have hstep : eraseFold i P (c :: cs) =
        eraseFold i (P.set c.toNat ((P.getD c.toNat []).erase i)) cs := rfl
    rw [hstep]
    refine ih _ (fun q => ?_)
    by_cases hr : c.toNat < P.length
    · by_cases hq : q = c.toNat
      · rw [hq, getD_set_self _ _ _ hr]
        exact (hnd _).erase i
      · rw [getD_set_ne _ _ _ _ hq]
        exact hnd q
    · rw [List.set_eq_of_length_le (le_of_not_lt hr)]
      exact hnd q

theorem mem_eraseFold (i j : ℤ) (cs : List ℤ) (P : List (List ℤ)) (p : ℕ)
    (hin : ∀ c ∈ cs, 0 ≤ c ∧ c.toNat < P.length)
    (hnd : ∀ q : ℕ, (P.getD q []).Nodup) :
    j ∈ (eraseFold i P cs).getD p [] ↔
      (j ∈ P.getD p [] ∧ ¬(j = i ∧ (p : ℤ) ∈ cs)) := by
  induction cs generalizing P with
  | nil => simp [eraseFold]
  | cons c cs ih =>
    have hc := hin c (by simp)
    have hstep : eraseFold i P (c :: cs) =
        eraseFold i (P.set c.toNat ((P.getD c.toNat []).erase i)) cs := rfl
    rw [hstep, ih _ (fun c' hc' => by
      rw [List.length_set]
      exact hin c' (List.mem_cons_of_mem _ hc'))
      (fun q => by
        by_cases hq : q = c.toNat
        · rw [hq, getD_set_self _ _ _ hc.2]
          exact (hnd _).erase i
        · rw [getD_set_ne _ _ _ _ hq]
          exact hnd q)]
    by_cases hpc : (p : ℤ) = c
    · have hp : p = c.toNat := by omega
      have hgs : (P.set c.toNat ((P.getD c.toNat []).erase i)).getD p [] =
          (P.getD p []).erase i := by
        rw [hp]
        exact getD_set_self _ _ _ hc.2
      rw [hgs, (hnd _).mem_erase_iff]
      constructor
      · rintro ⟨⟨hne, hmem⟩, _⟩
        exact ⟨hmem, by rintro ⟨rfl, _⟩; exact hne rfl⟩
      · rintro ⟨hmem, hno⟩
        have hne : j ≠ i := by
          rintro rfl
          exact hno ⟨rfl, by rw [hpc]; exact List.mem_cons_self _ _⟩
        refine ⟨⟨hne, hmem⟩, ?_⟩
        rintro ⟨rfl, _⟩
        exact hne rfl
    · have hp : p ≠ c.toNat := by omega
      rw [getD_set_ne _ _ _ _ hp]
      constructor
      · rintro ⟨hmem, hno⟩
        refine ⟨hmem, ?_⟩
        rintro ⟨rfl, hcs⟩
        rcases List.mem_cons.mp hcs with h' | h'
        · exact hpc h'
        · exact hno ⟨rfl, h'⟩
      · rintro ⟨hmem, hno⟩
        refine ⟨hmem, ?_⟩
        rintro ⟨rfl, hcs⟩
        exact hno ⟨rfl, List.mem_cons_of_mem _ hcs⟩

theorem addBody_partitions (g : Grid) (i : ℤ) (σ : State) :
    (SpatialGrid.addBody g i σ).partitions =
      addFold i σ.partitions (getCellsInAABB g ((σ.store i).aabb)) := by
  unfold SpatialGrid.addBody
  dsimp only
  rw [updateBody_partitions, foldl_setPart_partitions]
  rfl

theorem addBody_store_self (g : Grid) (i : ℤ) (σ : State) :
    (SpatialGrid.addBody g i σ).store i = { σ.store i with isInGrid := true } := by
  unfold SpatialGrid.addBody
  dsimp only
  rw [updateBody_store, foldl_setPart_store, if_pos rfl]

theorem removeBody_store_self (g : Grid) (i : ℤ) (σ : State) :
    (SpatialGrid.removeBody g i σ).store i = { σ.store i with isInGrid := false } := by
  unfold SpatialGrid.removeBody
  dsimp only
  rw [updateBody_store, foldl_setPart_store, if_pos rfl]

theorem addBody_store (g : Grid) (i : ℤ) (σ : State) (j : ℤ) :
    (SpatialGrid.addBody g i σ).store j =
      if j = i then { σ.store i with isInGrid := true } else σ.store j := by
  unfold SpatialGrid.addBody
  dsimp only
  rw [updateBody_store, foldl_setPart_store]

theorem removeBody_partitions (g : Grid) (i : ℤ) (σ : State) :
    (SpatialGrid.removeBody g i σ).partitions =
      eraseFold i σ.partitions (getCellsInAABB g ((σ.store i).aabb)) := by
  unfold SpatialGrid.removeBody
  dsimp only
  rw [updateBody_partitions, foldl_setPart_partitions]
  rfl

theorem removeBody_store (g : Grid) (i : ℤ) (σ : State) (j : ℤ) :
    (SpatialGrid.removeBody g i σ).store j =
      if j = i then { σ.store i with isInGrid := false } else σ.store j := by
  unfold SpatialGrid.removeBody
  dsimp only
  rw [updateBody_store, foldl_setPart_store]

/-- Every clamped cell index is nonnegative and below `width * height`. -/
theorem getCells_bounds (g : Grid) (box : AABB) (hw : 1 ≤ g.width) (hh : 1 ≤ g.height) :
    ∀ c ∈ getCellsInAABB g box, 0 ≤ c ∧ c.toNat < g.width * g.height := by
  intro c hc
  unfold getCellsInAABB at hc
  simp only [List.mem_flatMap, List.mem_map] at hc
  obtain ⟨y, _, x, _, rfl⟩ := hc
  have hwz : (1 : ℤ) ≤ (g.width : ℤ) := by exact_mod_cast hw
  have hhz : (1 : ℤ) ≤ (g.height : ℤ) := by exact_mod_cast hh
  have h1 : (0 : ℤ) ≤ max 0 (min ((g.width : ℤ) - 1) x) := le_max_left _ _
  have h2 : max 0 (min ((g.width : ℤ) - 1) x) ≤ (g.width : ℤ) - 1 :=
    max_le (by omega) (min_le_left _ _)
  have h3 : (0 : ℤ) ≤ max 0 (min ((g.height : ℤ) - 1) y) := le_max_left _ _
  have h4 : max 0 (min ((g.height : ℤ) - 1) y) ≤ (g.height : ℤ) - 1 :=
    max_le (by omega) (min_le_left _ _)
  have hle : max 0 (min ((g.width : ℤ) - 1) x) +
      max 0 (min ((g.height : ℤ) - 1) y) * (g.width : ℤ) ≤
      ((g.width : ℤ) - 1) + ((g.height : ℤ) - 1) * (g.width : ℤ) :=
    add_le_add h2 (mul_le_mul_of_nonneg_right h4 (by omega))
  have heq : ((g.width : ℤ) - 1) + ((g.height : ℤ) - 1) * (g.width : ℤ) =
      (g.width : ℤ) * (g.height : ℤ) - 1 := by ring
  have hcast : ((g.width * g.height : ℕ) : ℤ) = (g.width : ℤ) * (g.height : ℤ) := by
    push_cast
    ring
  have h0 : (0 : ℤ) ≤ max 0 (min ((g.width : ℤ) - 1) x) +
      max 0 (min ((g.height : ℤ) - 1) y) * (g.width : ℤ) :=
    add_nonneg h1 (mul_nonneg h3 (by linarith))
  have hlt : max 0 (min ((g.width : ℤ) - 1) x) +
      max 0 (min ((g.height : ℤ) - 1) y) * (g.width : ℤ) <
      ((g.width * g.height : ℕ) : ℤ) := by
    rw [hcast]
    linarith
  refine ⟨h0, ?_⟩
  generalize hgen : max 0 (min ((g.width : ℤ) - 1) x) +
      max 0 (min ((g.height : ℤ) - 1) y) * (g.width : ℤ) = t at h0 hlt ⊢
  omega

/-- A state with an empty one-cell grid and only default bodies. -/
noncomputable def baseState : State :=
  { store := fun _ => mkBody 1 (Shape.circle 1), partitions := [[]], worldBodies := [],
    collisionPairs := [], contacts := [], gravity := ⟨0, 0⟩ }

/-- C7: adding a body to the grid and removing it again (its AABB unchanged in
between, and the body resident in no partition beforehand) leaves every
partition free of the body and clears `isInGrid`.  The hypotheses are the
`SpatialGrid` representation invariants: at least one cell per axis,
`width * height` partitions, and duplicate-free partitions (JS `Set`s). -/
theorem C7_grid_round_trip (g : Grid) (σ : State) (i : ℤ)
    (hw : 1 ≤ g.width) (hh : 1 ≤ g.height)
    (hlen : σ.partitions.length = g.width * g.height)
    (hnd : ∀ q : ℕ, (σ.partitions.getD q []).Nodup)
    (hni : ∀ p : ℕ, i ∉ σ.partitions.getD p []) :
    (∀ p : ℕ,
      i ∉ (SpatialGrid.removeBody g i (SpatialGrid.addBody g i σ)).partitions.getD p []) ∧
    ((SpatialGrid.removeBody g i (SpatialGrid.addBody g i σ)).store i).isInGrid = false := by
  have haabb : ((SpatialGrid.addBody g i σ).store i).aabb = (σ.store i).aabb := by
    rw [addBody_store]
    simp
  have hbounds : ∀ c ∈ getCellsInAABB g ((σ.store i).aabb),
      0 ≤ c ∧ c.toNat < σ.partitions.length := by
    rw [hlen]
    exact getCells_bounds g _ hw hh
  constructor
  · intro p
    rw [removeBody_partitions, haabb, addBody_partitions]
    rw [mem_eraseFold i i _ _ p
      (by rw [addFold_length]; exact hbounds)
      (nodup_addFold i _ _ hnd)]
    rw [mem_addFold i i _ _ p hbounds]
    rintro ⟨h1 | ⟨_, h2⟩, h3⟩
    · exact hni p h1
    · exact h3 ⟨rfl, h2⟩
  · rw [removeBody_store]
    simp

/-- C7 witness: round trip of body `7` through an empty `1 × 1` grid. -/
theorem C7_grid_round_trip_witness :
    (∀ p : ℕ,
      (7 : ℤ) ∉ (SpatialGrid.removeBody ⟨1, 1, 1⟩ 7
        (SpatialGrid.addBody ⟨1, 1, 1⟩ 7 baseState)).partitions.getD p []) ∧
    ((SpatialGrid.removeBody ⟨1, 1, 1⟩ 7
        (SpatialGrid.addBody ⟨1, 1, 1⟩ 7 baseState)).store 7).isInGrid = false := by
  refine C7_grid_round_trip ⟨1, 1, 1⟩ baseState 7 (by norm_num) (by norm_num) (by rfl) ?_ ?_
  · intro q
    match q with
    | 0 => simp [baseState]
    | Nat.succ n => simp [baseState, List.getD]
  · intro p
    match p with
    | 0 => simp [baseState]
    | Nat.succ n => simp [baseState, List.getD]

/-- C6 (amended): `World.addBody` binds the body's world reference and inserts
it into the world's body set; `World.removeBody` removes the body from the
body set but also assigns the world reference to this world — it re-binds
rather than unbinds — and touches nothing else. -/
theorem C6_add_remove_world_binding (σ : State) (i : ℤ) (hnd : σ.worldBodies.Nodup) :
    ((World.addBody i σ).store i).world = true ∧
    i ∈ (World.addBody i σ).worldBodies ∧
    ((World.removeBody i σ).store i).world = true ∧
    i ∉ (World.removeBody i σ).worldBodies ∧
    (∀ j : ℤ, j ≠ i → (World.removeBody i σ).store j = σ.store j) ∧
    (World.removeBody i σ).partitions = σ.partitions := by
  refine ⟨?_, ?_, ?_, ?_, ?_, rfl⟩
  · simp [World.addBody, updateBody_store]
  · unfold World.addBody
    dsimp only
    rw [updateBody_worldBodies, mem_setAdd]
    exact Or.inr rfl
  · simp [World.removeBody, updateBody_store]
  · unfold World.removeBody
    dsimp only
    rw [updateBody_worldBodies]
    intro hmem
    exact (hnd.mem_erase_iff.mp hmem).1 rfl
  · intro j hj
    simp [World.removeBody, updateBody_store, hj]

/-- C6 witness: binding behaviour on a concrete world and body. -/
theorem C6_add_remove_world_binding_witness :
    ((World.removeBody 5 baseState).store 5).world = true ∧
    (5 : ℤ) ∉ (World.removeBody 5 baseState).worldBodies := by
  have h := C6_add_remove_world_binding baseState 5 (by simp [baseState])
  exact ⟨h.2.2.1, h.2.2.2.1⟩

/-- C6 counterexample: the claim says `World.removeBody` unbinds the owning
world reference, but after `addBody` then `removeBody` the body's world
reference is still bound (the source assigns `body.world = this` in
`removeBody`), never unbound. -/
theorem C6_counterexample_remove_keeps_binding :
    ((World.removeBody 5 (World.addBody 5 baseState)).store 5).world = true ∧
    ¬((World.removeBody 5 (World.addBody 5 baseState)).store 5).world = false := by
  constructor <;> simp [World.removeBody, World.addBody, updateBody_store]

/-- Concrete resolution scenario: static body `1`, dynamic body `2`, both at
rest, with a contact of penetration `0.5` along `(1,0)`. -/
noncomputable def c4State : State :=
  { store := fun i => if i = 1 then { mkBody 1 (Shape.circle 1) with isStatic := true }
      else { mkBody 1 (Shape.circle 1) with position := ⟨1.5, 0⟩ },
    partitions := [[]], worldBodies := [1, 2], collisionPairs := [], contacts := [],
    gravity := ⟨0, 0⟩ }

/-- C4 witness: the separating-contact clause instantiated on a concrete
static/dynamic contact at relative rest. -/
theorem C4_resolve_both_static_and_separating_witness :
    ((resolveContact c4State ⟨1, 2, ⟨1, 0⟩, 0.5, ⟨1, 0⟩⟩).store 2).velocity =
      (c4State.store 2).velocity := by
  exact ((C4_resolve_both_static_and_separating c4State ⟨1, 2, ⟨1, 0⟩, 0.5, ⟨1, 0⟩⟩
    (by decide)).2 (by simp [c4State, mkBody]) (by norm_num [c4State, mkBody])).1 2

/-- Generic `foldl` invariant with membership of the folded element. -/
theorem foldl_inv_mem {α β : Type} (f : β → α → β) (P : β → Prop) (l : List α)
    (h : ∀ s x, x ∈ l → P s → P (f s x)) (s : β) (hs : P s) : P (l.foldl f s) := by
  induction l generalizing s with
  | nil => exact hs
  | cons x xs ih =>
    exact ih (fun s' x' hx' hs' => h s' x' (List.mem_cons_of_mem _ hx') hs')
      (f s x) (h s x (List.mem_cons_self _ _) hs)

/-- The `SpatialGrid` representation invariant on partitions: `width * height`
cells, each a duplicate-free JS `Set`. -/
def PartsOK (g : Grid) (σ : State) : Prop :=
  σ.partitions.length = g.width * g.height ∧ ∀ q : ℕ, (σ.partitions.getD q []).Nodup

theorem partsOK_updateBody (g : Grid) (σ : State) (i : ℤ) (f : Body → Body)
    (h : PartsOK g σ) : PartsOK g (updateBody σ i f) := h

theorem partsOK_addBody (g : Grid) (i : ℤ) (σ : State) (h : PartsOK g σ) :
    PartsOK g (SpatialGrid.addBody g i σ) := by
  constructor
  · rw [addBody_partitions, addFold_length]
    exact h.1
  · intro q
    rw [addBody_partitions]
    exact nodup_addFold i _ _ h.2 q

theorem partsOK_removeBody (g : Grid) (i : ℤ) (σ : State) (h : PartsOK g σ) :
    PartsOK g (SpatialGrid.removeBody g i σ) := by
  constructor
  · rw [removeBody_partitions, eraseFold_length]
    exact h.1
  · intro q
    rw [removeBody_partitions]
    exact nodup_eraseFold i _ _ h.2 q

theorem mem_queryAABB (g : Grid) (σ : State) (box : AABB) (j : ℤ) :
    j ∈ SpatialGrid.queryAABB g σ box ↔
      ∃ c ∈ getCellsInAABB g box, j ∈ σ.partitions.getD c.toNat [] := by
  unfold SpatialGrid.queryAABB
  simp [List.mem_flatMap]

/-- After `removeBody`, querying the removed body's own AABB cannot return it:
the query walks exactly the cells the body was just erased from. -/
theorem not_mem_query_after_remove (g : Grid) (σ : State) (a : ℤ)
    (hw : 1 ≤ g.width) (hh : 1 ≤ g.height) (hok : PartsOK g σ) :
    a ∉ SpatialGrid.queryAABB g (SpatialGrid.removeBody g a σ)
        (((SpatialGrid.removeBody g a σ).store a).aabb) := by
  have haabb : ((SpatialGrid.removeBody g a σ).store a).aabb = (σ.store a).aabb := by
    rw [removeBody_store]
    simp
  rw [haabb]
  intro hmem
  rw [mem_queryAABB] at hmem
  obtain ⟨c, hc, hmem'⟩ := hmem
  have hbounds : ∀ c' ∈ getCellsInAABB g ((σ.store a).aabb),
      0 ≤ c' ∧ c'.toNat < σ.partitions.length := by
    rw [hok.1]
    exact getCells_bounds g _ hw hh
  rw [removeBody_partitions, mem_eraseFold a a _ _ _ hbounds hok.2] at hmem'
  have hcz : ((c.toNat : ℕ) : ℤ) = c := by
    have := (hbounds c hc).1
    omega
  exact hmem'.2 ⟨rfl, by rw [hcz]; exact hc⟩

/-- C10: every pair emitted by `generatePairs` has two distinct bodies — each
body is removed from exactly the cells of its current AABB immediately before
those same cells are queried on its behalf.  The hypotheses are the
`SpatialGrid` representation invariants. -/
theorem C10_generated_pairs_distinct (g : Grid) (σ : State) (bodies : List ℤ)
    (hw : 1 ≤ g.width) (hh : 1 ≤ g.height)
    (hlen : σ.partitions.length = g.width * g.height)
    (hnd : ∀ q : ℕ, (σ.partitions.getD q []).Nodup) :
    ∀ pr ∈ (SpatialGrid.generatePairs g σ bodies).2, pr.1 ≠ pr.2 := by
  unfold SpatialGrid.generatePairs
  dsimp only
  set σ1 := bodies.foldl (fun s i =>
    let s := updateBody s i (fun b => { b with lastPairId := -1 })
    if (s.store i).isInGrid then s else SpatialGrid.addBody g i s) σ with hσ1
  have hok1 : PartsOK g σ1 := by
    rw [hσ1]
    refine foldl_inv_mem _ (PartsOK g) bodies (fun s i _ hs => ?_) σ ⟨hlen, hnd⟩
    dsimp only
    split
    · exact partsOK_updateBody g s i _ hs
    · exact partsOK_addBody g i _ (partsOK_updateBody g s i _ hs)
  refine (foldl_inv_mem _
    (fun (acc : State × List (ℤ × ℤ)) => PartsOK g acc.1 ∧ ∀ pr ∈ acc.2, pr.1 ≠ pr.2)
    (List.range σ1.partitions.length) ?_ (σ1, []) ⟨hok1, by simp⟩).2
  intro acc k _ hacc
  dsimp only
  refine foldl_inv_mem _
    (fun (acc2 : State × List (ℤ × ℤ)) => PartsOK g acc2.1 ∧ ∀ pr ∈ acc2.2, pr.1 ≠ pr.2)
    _ (fun acc2 a _ hacc2 => ?_) acc hacc
  dsimp only
  split
  · exact hacc2
  · have hok2 : PartsOK g (SpatialGrid.removeBody g a acc2.1) :=
      partsOK_removeBody g a _ hacc2.1
    have hres : ∀ b ∈ SpatialGrid.queryAABB g (SpatialGrid.removeBody g a acc2.1)
        (((SpatialGrid.removeBody g a acc2.1).store a).aabb), b ≠ a := by
      intro b hb hEq
      exact not_mem_query_after_remove g acc2.1 a hw hh hacc2.1 (hEq ▸ hb)
    refine foldl_inv_mem _
      (fun (acc3 : State × List (ℤ × ℤ)) => PartsOK g acc3.1 ∧ ∀ pr ∈ acc3.2, pr.1 ≠ pr.2) _
      (fun acc3 b hb hacc3 => ?_) _ ⟨hok2, hacc2.2⟩
    dsimp only
    split
    · exact hacc3
    · refine ⟨partsOK_updateBody g acc3.1 b _ hacc3.1, ?_⟩
      intro pr hpr
      rcases List.mem_append.mp hpr with h | h
      · exact hacc3.2 pr h
      · rcases List.mem_singleton.mp h with rfl
        intro hEq
        exact hres b hb (by simpa using hEq.symm)

/-- C10 witness: on a concrete empty `1 × 1` grid with bodies `1` and `2`,
the degenerate pair `(3, 3)` cannot be among the generated pairs. -/
theorem C10_generated_pairs_distinct_witness :
    (1 : ℕ) ≤ 1 ∧
    ((3 : ℤ), (3 : ℤ)) ∉ (SpatialGrid.generatePairs ⟨1, 1, 1⟩ baseState [1, 2]).2 := by
  refine ⟨le_refl 1, fun hmem => ?_⟩
  refine C10_generated_pairs_distinct ⟨1, 1, 1⟩ baseState [1, 2]
    (by norm_num) (by norm_num) (by rfl) ?_ (3, 3) hmem rfl
  intro q
  match q with
  | 0 => simp [baseState]
  | Nat.succ n => simp [baseState, List.getD]

/-! ## The grid-residency invariant (C2) -/

/-- The strong residency invariant: a body is a member of exactly the
partitions of the cells covered by its current AABB when `isInGrid`, and of
no partition otherwise. -/
def GridInv (g : Grid) (σ : State) : Prop :=
  ∀ (i : ℤ) (p : ℕ), i ∈ σ.partitions.getD p [] ↔
    ((σ.store i).isInGrid = true ∧ (p : ℤ) ∈ getCellsInAABB g ((σ.store i).aabb))

/-- The claimed plain equivalence: `isInGrid` equals presence in at least one
partition. -/
def InGridIffSomewhere (σ : State) (i : ℤ) : Prop :=
  (σ.store i).isInGrid = true ↔ ∃ p : ℕ, i ∈ σ.partitions.getD p []

theorem getCells_nonneg (g : Grid) (box : AABB) :
    ∀ c ∈ getCellsInAABB g box, 0 ≤ c := by
  intro c hc
  unfold getCellsInAABB at hc
  simp only [List.mem_flatMap, List.mem_map] at hc
  obtain ⟨y, _, x, _, rfl⟩ := hc
  exact add_nonneg (le_max_left _ _)
    (mul_nonneg (le_max_left _ _) (Int.natCast_nonneg _))

theorem mem_intRange_self (a b : ℤ) (h : a ≤ b) : a ∈ intRange a b := by
  unfold intRange
  have h0 : 0 < (b + 1 - a).toNat := by omega
  simp only [List.mem_map]
  exact ⟨0, List.mem_range.mpr h0, by simp⟩

theorem getCells_nonempty (g : Grid) (box : AABB) (hcs : 0 < g.cellSize)
    (hx : box.min.x ≤ box.max.x) (hy : box.min.y ≤ box.max.y) :
    ∃ c, c ∈ getCellsInAABB g box := by
  unfold getCellsInAABB worldToCell
  dsimp only
  have hxf : ⌊box.min.x / g.cellSize⌋ ≤ ⌊box.max.x / g.cellSize⌋ :=
    Int.floor_le_floor ((div_le_div_iff_of_pos_right hcs).mpr hx)
  have hyf : ⌊box.min.y / g.cellSize⌋ ≤ ⌊box.max.y / g.cellSize⌋ :=
    Int.floor_le_floor ((div_le_div_iff_of_pos_right hcs).mpr hy)
  exact ⟨_, List.mem_flatMap.mpr ⟨_, mem_intRange_self _ _ hyf,
    List.mem_map.mpr ⟨_, mem_intRange_self _ _ hxf, rfl⟩⟩⟩

theorem gridInv_updateBody (g : Grid) (σ : State) (i : ℤ) (f : Body → Body)
    (hf1 : (f (σ.store i)).isInGrid = (σ.store i).isInGrid)
    (hf2 : (f (σ.store i)).aabb = (σ.store i).aabb)
    (h : GridInv g σ) : GridInv g (updateBody σ i f) := by
  intro j p
  by_cases hj : j = i
  · rw [hj]
    simpa [updateBody_store, hf1, hf2] using h i p
  · simpa [updateBody_store, hj] using h j p

theorem gridInv_addBody (g : Grid) (i : ℤ) (σ : State)
    (hw : 1 ≤ g.width) (hh : 1 ≤ g.height) (hok : PartsOK g σ)
    (h : GridInv g σ) : GridInv g (SpatialGrid.addBody g i σ) := by
  intro j p
  have hbounds : ∀ c ∈ getCellsInAABB g ((σ.store i).aabb),
      0 ≤ c ∧ c.toNat < σ.partitions.length := by
    rw [hok.1]
    exact getCells_bounds g _ hw hh
  rw [addBody_partitions, mem_addFold _ _ _ _ _ hbounds]
  by_cases hj : j = i
  · subst hj
    rw [addBody_store_self, h j p]
    dsimp only
    constructor
    · rintro (⟨_, hmem⟩ | ⟨_, hmem⟩) <;> exact ⟨rfl, hmem⟩
    · rintro ⟨_, hmem⟩
      exact Or.inr ⟨rfl, hmem⟩
  · rw [addBody_store g i σ j, if_neg hj, h j p]
    constructor
    · rintro (hmem | ⟨hji, _⟩)
      · exact hmem
      · exact absurd hji hj
    · exact Or.inl

theorem gridInv_removeBody (g : Grid) (i : ℤ) (σ : State)
    (hw : 1 ≤ g.width) (hh : 1 ≤ g.height) (hok : PartsOK g σ)
    (h : GridInv g σ) : GridInv g (SpatialGrid.removeBody g i σ) := by
  intro j p
  have hbounds : ∀ c ∈ getCellsInAABB g ((σ.store i).aabb),
      0 ≤ c ∧ c.toNat < σ.partitions.length := by
    rw [hok.1]
    exact getCells_bounds g _ hw hh
  rw [removeBody_partitions, mem_eraseFold _ _ _ _ _ hbounds hok.2]
  by_cases hj : j = i
  · subst hj
    rw [removeBody_store_self, h j p]
    dsimp only
    constructor
    · rintro ⟨⟨_, hmem⟩, hno⟩
      exact (hno ⟨rfl, hmem⟩).elim
    · rintro ⟨hfalse, _⟩
      simp at hfalse
  · rw [removeBody_store g i σ j, if_neg hj, h j p]
    constructor
    · rintro ⟨hmem, _⟩
      exact hmem
    · intro hmem
      exact ⟨hmem, by rintro ⟨hji, _⟩; exact hj hji⟩

/-- Full invariant: representation invariant plus residency invariant. -/
def Inv (g : Grid) (σ : State) : Prop := PartsOK g σ ∧ GridInv g σ

theorem inv_addBody (g : Grid) (i : ℤ) (σ : State)
    (hw : 1 ≤ g.width) (hh : 1 ≤ g.height) (h : Inv g σ) :
    Inv g (SpatialGrid.addBody g i σ) :=
  ⟨partsOK_addBody g i σ h.1, gridInv_addBody g i σ hw hh h.1 h.2⟩

theorem inv_removeBody (g : Grid) (i : ℤ) (σ : State)
    (hw : 1 ≤ g.width) (hh : 1 ≤ g.height) (h : Inv g σ) :
    Inv g (SpatialGrid.removeBody g i σ) :=
  ⟨partsOK_removeBody g i σ h.1, gridInv_removeBody g i σ hw hh h.1 h.2⟩

theorem inv_updateBody_lastPair (g : Grid) (σ : State) (i : ℤ) (v : ℤ) (h : Inv g σ) :
    Inv g (updateBody σ i (fun b => { b with lastPairId := v })) :=
  ⟨h.1, gridInv_updateBody g σ i _ rfl rfl h.2⟩

theorem inv_generatePairs (g : Grid) (σ : State) (bodies : List ℤ)
    (hw : 1 ≤ g.width) (hh : 1 ≤ g.height) (h : Inv g σ) :
    Inv g (SpatialGrid.generatePairs g σ bodies).1 := by
  unfold SpatialGrid.generatePairs
  dsimp only
  set σ1 := bodies.foldl (fun s i =>
    let s := updateBody s i (fun b => { b with lastPairId := -1 })
    if (s.store i).isInGrid then s else SpatialGrid.addBody g i s) σ with hσ1
  have h1 : Inv g σ1 := by
    rw [hσ1]
    refine foldl_inv_mem _ (Inv g) bodies (fun s i _ hs => ?_) σ h
    dsimp only
    split
    · exact inv_updateBody_lastPair g s i (-1) hs
    · exact inv_addBody g i _ hw hh (inv_updateBody_lastPair g s i (-1) hs)
  refine foldl_inv_mem _
    (fun (acc : State × List (ℤ × ℤ)) => Inv g acc.1)
    (List.range σ1.partitions.length) ?_ (σ1, []) h1
  intro acc k _ hacc
  dsimp only
  refine foldl_inv_mem _ (fun (acc2 : State × List (ℤ × ℤ)) => Inv g acc2.1)
    _ (fun acc2 a _ hacc2 => ?_) acc hacc
  dsimp only
  split
  · exact hacc2
  · refine foldl_inv_mem _ (fun (acc3 : State × List (ℤ × ℤ)) => Inv g acc3.1)
      _ (fun acc3 b _ hacc3 => ?_) _ (inv_removeBody g a _ hw hh hacc2)
    dsimp only
    split
    · exact hacc3
    · exact ⟨hacc3.1, gridInv_updateBody g acc3.1 b _ rfl rfl hacc3.2⟩

/-- C2 (amended): the grid operations do not preserve the plain flag/presence
equivalence in general (see the counterexample); what `addBody`, `removeBody`
and `generatePairs` each preserve is the stronger residency invariant
`GridInv` — membership in exactly the partitions of the cells covered by the
body's current AABB when `isInGrid`, membership nowhere otherwise — together
with the partition representation invariant, and under that invariant the
claimed equivalence holds for every body whose AABB is well-formed. -/
theorem C2_isInGrid_invariant (g : Grid) (σ : State)
    (hw : 1 ≤ g.width) (hh : 1 ≤ g.height) :
    (∀ i : ℤ, Inv g σ → Inv g (SpatialGrid.addBody g i σ)) ∧
    (∀ i : ℤ, Inv g σ → Inv g (SpatialGrid.removeBody g i σ)) ∧
    (∀ bodies : List ℤ, Inv g σ → Inv g (SpatialGrid.generatePairs g σ bodies).1) ∧
    (Inv g σ → 0 < g.cellSize → ∀ i : ℤ,
      (σ.store i).aabb.min.x ≤ (σ.store i).aabb.max.x →
      (σ.store i).aabb.min.y ≤ (σ.store i).aabb.max.y →
      InGridIffSomewhere σ i) := by
  refine ⟨fun i h => inv_addBody g i σ hw hh h,
          fun i h => inv_removeBody g i σ hw hh h,
          fun bodies h => inv_generatePairs g σ bodies hw hh h, ?_⟩
  intro h hcs i hx hy
  unfold InGridIffSomewhere
  constructor
  · intro hin
    obtain ⟨c, hc⟩ := getCells_nonempty g ((σ.store i).aabb) hcs hx hy
    have hc0 : 0 ≤ c := getCells_nonneg g _ c hc
    refine ⟨c.toNat, ?_⟩
    rw [h.2 i c.toNat]
    exact ⟨hin, by rwa [Int.toNat_of_nonneg hc0]⟩
  · rintro ⟨p, hp⟩
    exact ((h.2 i p).mp hp).1

/-- C2 witness: the invariant instantiated on a concrete empty grid. -/
theorem C2_isInGrid_invariant_witness :
    Inv ⟨1, 1, 1⟩ (SpatialGrid.addBody ⟨1, 1, 1⟩ 3 baseState) := by
  have hInv : Inv ⟨1, 1, 1⟩ baseState := by
    constructor
    · refine ⟨rfl, fun q => ?_⟩
      match q with
      | 0 => simp [baseState]
      | Nat.succ n => simp [baseState, List.getD]
    · intro i p
      constructor
      · intro hmem
        exfalso
        match p with
        | 0 => simp [baseState] at hmem
        | Nat.succ n => simp [baseState, List.getD] at hmem
      · rintro ⟨hin, _⟩
        simp [baseState, mkBody] at hin
  exact (C2_isInGrid_invariant ⟨1, 1, 1⟩ baseState (by norm_num) (by norm_num)).1 3 hInv

/-- A grid state in which body `5` was inserted while its AABB covered cell 0
of a `2 × 1` grid, after which the AABB moved on to cell 1: the plain
flag/presence equivalence still holds for every body. -/
noncomputable def c2State : State :=
  { store := fun i => if i = 5 then
      { mkBody 1 (Shape.circle 1) with isInGrid := true, aabb := ⟨⟨1, 0⟩, ⟨1.5, 0.5⟩⟩ }
      else mkBody 1 (Shape.circle 1),
    partitions := [[5], []], worldBodies := [5], collisionPairs := [], contacts := [],
    gravity := ⟨0, 0⟩ }

/-- C2 counterexample: `SpatialGrid.removeBody` does not preserve the claimed
equivalence.  In `c2State` the flag/presence equivalence holds for every body,
but removing body `5` erases it only from the cells of its current AABB
(cell 1), leaving it resident in cell 0 with `isInGrid = false`. -/
theorem C2_counterexample_remove_breaks_equivalence :
    (∀ j : ℤ, InGridIffSomewhere c2State j) ∧
    ¬ InGridIffSomewhere (SpatialGrid.removeBody ⟨1, 2, 1⟩ 5 c2State) 5 := by
  constructor
  · intro j
    unfold InGridIffSomewhere
    by_cases hj : j = 5
    · subst hj
      constructor
      · intro _
        exact ⟨0, by simp [c2State]⟩
      · intro _
        simp [c2State]
    · constructor
      · intro hin
        exfalso
        simp [c2State, hj, mkBody] at hin
      · rintro ⟨p, hp⟩
        exfalso
        match p with
        | 0 =>
          simp [c2State] at hp
          exact hj hp
        | 1 => simp [c2State, List.getD] at hp
        | Nat.succ (Nat.succ n) => simp [c2State, List.getD] at hp
  · intro hiff
    have h5 : ((SpatialGrid.removeBody ⟨1, 2, 1⟩ 5 c2State).store 5).isInGrid = false := by
      rw [removeBody_store_self]
    have hcells : getCellsInAABB ⟨1, 2, 1⟩ (⟨⟨1, 0⟩, ⟨1.5, 0.5⟩⟩ : AABB) = [1] := by
      norm_num [getCellsInAABB, worldToCell, intRange]
      decide
    have haabb : (c2State.store 5).aabb = ⟨⟨1, 0⟩, ⟨1.5, 0.5⟩⟩ := by
      simp [c2State]
    have hmem : (5 : ℤ) ∈ (SpatialGrid.removeBody ⟨1, 2, 1⟩ 5 c2State).partitions.getD 0 [] := by
      rw [removeBody_partitions, haabb, hcells]
      have hpart : c2State.partitions = [[5], []] := rfl
      rw [hpart]
      decide
    have := hiff.mpr ⟨0, hmem⟩
    rw [h5] at this
    exact Bool.noConfusion this

/-- Two circle bodies resident in the single cell of a `1 × 1` grid (cell size
`10`), both awake with fresh AABBs, as left behind by a previous frame that
never ran pair generation (or by direct grid insertion). -/
noncomputable def c8State : State :=
  { store := fun i => if i = 1 then
      { mkBody 1 (Shape.circle 1) with position := ⟨2, 2⟩, aabb := ⟨⟨1, 1⟩, ⟨3, 3⟩⟩, isInGrid := true }
      else
      { mkBody 1 (Shape.circle 1) with position := ⟨3.5, 2⟩, aabb := ⟨⟨2.5, 1⟩, ⟨4.5, 3⟩⟩, isInGrid := true },
    partitions := [[1, 2]], worldBodies := [1, 2], collisionPairs := [], contacts := [],
    gravity := ⟨0, 0⟩ }

/-- C8: `World.removeBody` mutates only the world's body collection and the
body's world reference — it leaves every grid partition and the body's
`isInGrid` flag untouched — and consequently a body still resident in the
grid when removed from the world is still emitted in candidate pairs by a
subsequent `generatePairs` run over the remaining world bodies: concretely,
after removing body `1` from the world of `c8State`, `generatePairs` over the
remaining body set `[2]` still emits the pair `(1, 2)`. -/
theorem C8_removeBody_frame_and_stale_pairs :
    (∀ (σ : State) (i : ℤ),
      (World.removeBody i σ).partitions = σ.partitions ∧
      (World.removeBody i σ).store i = { σ.store i with world := true } ∧
      ((World.removeBody i σ).store i).isInGrid = (σ.store i).isInGrid ∧
      (∀ j : ℤ, j ≠ i → (World.removeBody i σ).store j = σ.store j) ∧
      (World.removeBody i σ).worldBodies = σ.worldBodies.erase i) ∧
    ((World.removeBody 1 c8State).worldBodies = [2] ∧
      (SpatialGrid.generatePairs ⟨10, 1, 1⟩ (World.removeBody 1 c8State) [2]).2 = [(1, 2)]) := by
  constructor
  · intro σ i
    refine ⟨rfl, ?_, ?_, ?_, rfl⟩
    · simp [World.removeBody, updateBody_store]
    · simp [World.removeBody, updateBody_store]
    · intro j hj
      simp [World.removeBody, updateBody_store, hj]
  · constructor
    · show ([1, 2] : List ℤ).erase 1 = [2]
      decide
    · norm_num [SpatialGrid.generatePairs, SpatialGrid.addBody, SpatialGrid.removeBody,
        SpatialGrid.queryAABB, getCellsInAABB, worldToCell, intRange, setPart, setAdd,
        updateBody, World.removeBody, c8State, mkBody, List.range_succ, List.getD]

/-! ## Static bodies across the pipeline (C1) -/

/-- Velocity components that survive the friction snap unchanged: each is
either exactly `0` or at least `0.01` in magnitude. -/
def velOK (v : Vector2) : Prop := (v.x = 0 ∨ 0.01 ≤ |v.x|) ∧ (v.y = 0 ∨ 0.01 ≤ |v.y|)

/-- Position, velocity and the static flag of every body agree between two
states. -/
def PVS (σ σ' : State) : Prop := ∀ j : ℤ,
  (σ'.store j).position = (σ.store j).position ∧
  (σ'.store j).velocity = (σ.store j).velocity ∧
  (σ'.store j).isStatic = (σ.store j).isStatic

theorem pvs_refl (σ : State) : PVS σ σ := fun _ => ⟨rfl, rfl, rfl⟩

theorem pvs_trans {σ1 σ2 σ3 : State} (h1 : PVS σ1 σ2) (h2 : PVS σ2 σ3) : PVS σ1 σ3 :=
  fun j => ⟨(h2 j).1.trans (h1 j).1, (h2 j).2.1.trans (h1 j).2.1, (h2 j).2.2.trans (h1 j).2.2⟩

theorem pvs_store_eq {σ σ' : State} (h : σ'.store = σ.store) : PVS σ σ' := by
  intro j
  rw [h]
  exact ⟨rfl, rfl, rfl⟩

theorem pvs_updateBody (σ : State) (i : ℤ) (f : Body → Body)
    (h1 : (f (σ.store i)).position = (σ.store i).position)
    (h2 : (f (σ.store i)).velocity = (σ.store i).velocity)
    (h3 : (f (σ.store i)).isStatic = (σ.store i).isStatic) :
    PVS σ (updateBody σ i f) := by
  intro j
  by_cases hj : j = i
  · subst hj
    simp [updateBody_store, h1, h2, h3]
  · simp [updateBody_store, hj]

theorem pvs_addBody (g : Grid) (i : ℤ) (σ : State) : PVS σ (SpatialGrid.addBody g i σ) := by
  intro j
  rw [addBody_store]
  by_cases hj : j = i
  · subst hj
    simp
  · simp [hj]

theorem pvs_removeBody (g : Grid) (i : ℤ) (σ : State) :
    PVS σ (SpatialGrid.removeBody g i σ) := by
  intro j
  rw [removeBody_store]
  by_cases hj : j = i
  · subst hj
    simp
  · simp [hj]

theorem pvs_generatePairs (g : Grid) (σ : State) (bodies : List ℤ) :
    PVS σ (SpatialGrid.generatePairs g σ bodies).1 := by
  unfold SpatialGrid.generatePairs
  dsimp only
  set σ1 := bodies.foldl (fun s i =>
    let s := updateBody s i (fun b => { b with lastPairId := -1 })
    if (s.store i).isInGrid then s else SpatialGrid.addBody g i s) σ with hσ1
  have h1 : PVS σ σ1 := by
    rw [hσ1]
    refine foldl_inv_mem _ (PVS σ) bodies (fun s i _ hs => ?_) σ (pvs_refl σ)
    dsimp only
    split
    · exact pvs_trans hs (pvs_updateBody s i _ rfl rfl rfl)
    · exact pvs_trans (pvs_trans hs (pvs_updateBody s i _ rfl rfl rfl)) (pvs_addBody g i _)
  refine foldl_inv_mem _
    (fun (acc : State × List (ℤ × ℤ)) => PVS σ acc.1)
    (List.range σ1.partitions.length) ?_ (σ1, []) h1
  intro acc k _ hacc
  dsimp only
  refine foldl_inv_mem _ (fun (acc2 : State × List (ℤ × ℤ)) => PVS σ acc2.1)
    _ (fun acc2 a _ hacc2 => ?_) acc hacc
  dsimp only
  split
  · exact hacc2
  · refine foldl_inv_mem _ (fun (acc3 : State × List (ℤ × ℤ)) => PVS σ acc3.1)
      _ (fun acc3 b _ hacc3 => ?_) _ (pvs_trans hacc2 (pvs_removeBody g a _))
    dsimp only
    split
    · exact hacc3
    · exact pvs_trans hacc3
        (pvs_updateBody acc3.1 b (fun bb => { bb with lastPairId := a }) rfl rfl rfl)

theorem pvs_stepBroadPhase (g : Grid) (σ : State) : PVS σ (stepBroadPhase g σ) := by
  unfold stepBroadPhase
  dsimp only
  set σ1 := σ.worldBodies.foldl (fun s i =>
    match (s.store i).shape with
    | .circle r => updateBody s i (fun b =>
        { b with aabb := ⟨⟨b.position.x - r, b.position.y - r⟩,
                          ⟨b.position.x + r, b.position.y + r⟩⟩ })) σ with hσ1
  have h1 : PVS σ σ1 := by
    rw [hσ1]
    refine foldl_inv_mem _ (PVS σ) σ.worldBodies (fun s i _ hs => ?_) σ (pvs_refl σ)
    dsimp only
    match (s.store i).shape with
    | .circle r => exact pvs_trans hs (pvs_updateBody s i _ rfl rfl rfl)
  exact pvs_trans h1 (pvs_trans (pvs_generatePairs g σ1 σ1.worldBodies) (pvs_store_eq rfl))

theorem pvs_narrowPair (σ : State) (pr : ℤ × ℤ) : PVS σ (narrowPair σ pr) := by
  unfold narrowPair
  match (σ.store pr.1).shape, (σ.store pr.2).shape with
  | .circle rA, .circle rB =>
    dsimp only
    split
    · intro j
      by_cases h2 : j = pr.2 <;> by_cases h1 : j = pr.1 <;>
        simp_all [updateBody_store, Body.wakeUp]
    · exact pvs_refl σ

theorem pvs_stepNarrowPhase (σ : State) : PVS σ (stepNarrowPhase σ) := by
  unfold stepNarrowPhase
  refine foldl_inv_mem _ (PVS σ) σ.collisionPairs (fun s pr _ hs => ?_) σ (pvs_refl σ)
  exact pvs_trans hs (pvs_narrowPair s pr)

theorem snap_id (x : ℝ) (h : x = 0 ∨ 0.01 ≤ |x|) :
    (if |x| < 0.01 then (0 : ℝ) else x) = x := by
  rcases h with rfl | h
  · simp
  · rw [if_neg (not_lt.mpr h)]

/-- What dynamic resolution may do to a static body `i`: position and the
static flag are untouched, and the velocity is untouched as long as it
satisfies `velOK` (otherwise the friction snap may have zeroed small
components). -/
def StaticOK (σ0 : State) (i : ℤ) (s : State) : Prop :=
  (s.store i).position = (σ0.store i).position ∧
  (s.store i).isStatic = true ∧
  ((s.store i).velocity = (σ0.store i).velocity ∨ ¬ velOK ((σ0.store i).velocity))

theorem staticOK_ite (σ0 : State) (i : ℤ) (c : Prop) [Decidable c] (s1 s2 : State)
    (h1 : StaticOK σ0 i s1) (h2 : StaticOK σ0 i s2) : StaticOK σ0 i (if c then s1 else s2) := by
  split <;> assumption

theorem staticOK_guarded_vel (σ0 : State) (i : ℤ) (s : State) (a : ℤ) (fv : Body → Vector2)
    (h : StaticOK σ0 i s) :
    StaticOK σ0 i (if (s.store a).isStatic = true then s
      else updateBody s a (fun bb => { bb with velocity := fv bb })) := by
  split
  · exact h
  · rename_i hg
    by_cases hia : i = a
    · exact absurd (hia ▸ h.2.1) hg
    · refine ⟨?_, ?_, ?_⟩ <;> simp only [updateBody_store, if_neg hia]
      · exact h.1
      · exact h.2.1
      · exact h.2.2

theorem staticOK_guarded_pos (σ0 : State) (i : ℤ) (s : State) (a : ℤ) (fp : Body → Vector2)
    (h : StaticOK σ0 i s) :
    StaticOK σ0 i (if (s.store a).isStatic = true then s
      else updateBody s a (fun bb => { bb with position := fp bb })) := by
  split
  · exact h
  · rename_i hg
    by_cases hia : i = a
    · exact absurd (hia ▸ h.2.1) hg
    · refine ⟨?_, ?_, ?_⟩ <;> simp only [updateBody_store, if_neg hia]
      · exact h.1
      · exact h.2.1
      · exact h.2.2

theorem staticOK_snap (σ0 : State) (i : ℤ) (s : State) (a : ℤ)
    (h : StaticOK σ0 i s) :
    StaticOK σ0 i (updateBody s a (fun bb => { bb with velocity :=
      ⟨if |bb.velocity.x| < 0.01 then 0 else bb.velocity.x,
       if |bb.velocity.y| < 0.01 then 0 else bb.velocity.y⟩ })) := by
  by_cases hia : i = a
  · subst hia
    refine ⟨?_, ?_, ?_⟩ <;> simp only [updateBody_store, if_pos rfl]
    · exact h.1
    · exact h.2.1
    · rcases h.2.2 with hv | hv
      · by_cases hok : velOK ((σ0.store i).velocity)
        · left
          dsimp only
          rw [hv, snap_id _ hok.1, snap_id _ hok.2]
          simp
        · exact Or.inr hok
      · exact Or.inr hv
  · refine ⟨?_, ?_, ?_⟩ <;> simp only [updateBody_store, if_neg hia]
    · exact h.1
    · exact h.2.1
    · exact h.2.2

theorem staticOK_snapSmall (σ0 : State) (i : ℤ) (s : State) (a : ℤ)
    (h : StaticOK σ0 i s) : StaticOK σ0 i (snapSmall a s) := by
  unfold snapSmall
  exact staticOK_snap σ0 i s a h

theorem staticOK_applyImpulse (σ0 : State) (i : ℤ) (a b : ℤ) (impulse : Vector2) (s : State)
    (h : StaticOK σ0 i s) : StaticOK σ0 i (applyImpulse a b impulse s) := by
  unfold applyImpulse
  dsimp only
  exact staticOK_guarded_vel σ0 i _ b _ (staticOK_guarded_vel σ0 i s a _ h)

theorem staticOK_applyFrictionImpulse (σ0 : State) (i : ℤ) (a b : ℤ) (ti : Vector2)
    (imA imB : ℝ) (s : State) (h : StaticOK σ0 i s) :
    StaticOK σ0 i (applyFrictionImpulse a b ti imA imB s) := by
  unfold applyFrictionImpulse
  dsimp only
  exact staticOK_guarded_vel σ0 i _ b _ (staticOK_guarded_vel σ0 i s a _ h)

theorem staticOK_applyFriction (σ0 : State) (i : ℤ) (a b : ℤ) (imA imB j : ℝ)
    (rv : Vector2) (van : ℝ) (normal : Vector2) (s : State) (h : StaticOK σ0 i s) :
    StaticOK σ0 i (applyFriction a b imA imB j rv van normal s) := by
  unfold applyFriction
  dsimp only
  refine staticOK_ite σ0 i _ _ _ ?_ h
  exact staticOK_snapSmall σ0 i _ b
    (staticOK_snapSmall σ0 i _ a (staticOK_applyFrictionImpulse σ0 i a b _ imA imB s h))

theorem staticOK_applyCorrection (σ0 : State) (i : ℤ) (a b : ℤ) (imA imB : ℝ)
    (normal : Vector2) (pen : ℝ) (s : State) (h : StaticOK σ0 i s) :
    StaticOK σ0 i (applyCorrection a b imA imB normal pen s) := by
  unfold applyCorrection
  dsimp only
  exact staticOK_guarded_pos σ0 i _ b _ (staticOK_guarded_pos σ0 i s a _ h)

/-- Dynamic resolution of one contact leaves a static body's position and
static flag untouched, and its velocity untouched when `velOK` holds. -/
theorem resolveContact_staticOK (σ : State) (c : Contact) (i : ℤ)
    (hi : (σ.store i).isStatic = true) : StaticOK σ i (resolveContact σ c) := by
  have hinit : StaticOK σ i σ := ⟨rfl, hi, Or.inl rfl⟩
  unfold resolveContact
  dsimp only
  split
  · exact hinit
  · refine staticOK_applyCorrection σ i c.bodyA c.bodyB _ _ _ _ _ ?_
    refine staticOK_ite σ i _ _ _ ?_ hinit
    exact staticOK_applyFriction σ i c.bodyA c.bodyB _ _ _ _ _ _ _
      (staticOK_applyImpulse σ i c.bodyA c.bodyB _ σ hinit)

theorem staticOK_comp {σ s t : State} {i : ℤ} (h1 : StaticOK σ i s) (h2 : StaticOK s i t) :
    StaticOK σ i t := by
  refine ⟨h2.1.trans h1.1, h2.2.1, ?_⟩
  rcases h1.2.2 with hv1 | hv1
  · rcases h2.2.2 with hv2 | hv2
    · exact Or.inl (hv2.trans hv1)
    · right
      rwa [hv1] at hv2
  · exact Or.inr hv1

theorem stepResolveCollisions_staticOK (σ : State) (i : ℤ)
    (hi : (σ.store i).isStatic = true) : StaticOK σ i (stepResolveCollisions σ) := by
  unfold stepResolveCollisions
  refine foldl_inv_mem _ (StaticOK σ i) σ.contacts (fun s c _ hs => ?_) σ ⟨rfl, hi, Or.inl rfl⟩
  exact staticOK_comp hs (resolveContact_staticOK s c i hs.2.1)

theorem integrate_static (gravity : Vector2) (dt : ℝ) (b : Body) (h : b.isStatic = true) :
    b.integrate gravity dt = b := by
  unfold Body.integrate
  simp [h]

theorem stepIntegrate_static (dt : ℝ) (σ : State) (i : ℤ)
    (hi : (σ.store i).isStatic = true) : (stepIntegrate dt σ).store i = σ.store i := by
  unfold stepIntegrate
  refine foldl_inv_mem _ (fun s => s.store i = σ.store i) σ.worldBodies
    (fun s jj _ hs => ?_) σ rfl
  dsimp only
  rw [updateBody_store]
  by_cases hj : i = jj
  · rw [if_pos hj, ← hj, hs, integrate_static _ _ _ hi]
  · rw [if_neg hj, hs]

/-- One `step` call leaves a static body's position and flag untouched, and
its velocity untouched when `velOK` holds. -/
theorem step_staticOK (g : Grid) (dt : ℝ) (σ : State) (i : ℤ)
    (hi : (σ.store i).isStatic = true) : StaticOK σ i (step g dt σ) := by
  have hBN : PVS σ (stepNarrowPhase (stepBroadPhase g σ)) :=
    pvs_trans (pvs_stepBroadPhase g σ) (pvs_stepNarrowPhase _)
  set σN := stepNarrowPhase (stepBroadPhase g σ) with hσN
  have hNi := hBN i
  have hNstat : (σN.store i).isStatic = true := hNi.2.2.trans hi
  have h1 : StaticOK σ i σN := ⟨hNi.1, hNstat, Or.inl hNi.2.1⟩
  have h3 : StaticOK σ i (stepResolveCollisions σN) :=
    staticOK_comp h1 (stepResolveCollisions_staticOK σN i hNstat)
  have h4 : (stepIntegrate dt (stepResolveCollisions σN)).store i =
      (stepResolveCollisions σN).store i :=
    stepIntegrate_static dt _ i h3.2.1
  have key : (step g dt σ).store i = (stepIntegrate dt (stepResolveCollisions σN)).store i :=
    rfl
  refine ⟨?_, ?_, ?_⟩ <;> rw [key, h4]
  · exact h3.1
  · exact h3.2.1
  · exact h3.2.2

theorem stepN_staticOK (g : Grid) (dt : ℝ) (n : ℕ) (σ : State) (i : ℤ)
    (hi : (σ.store i).isStatic = true) : StaticOK σ i (stepN g dt n σ) := by
  induction n generalizing σ with
  | zero => exact ⟨rfl, hi, Or.inl rfl⟩
  | succ n ih =>
    have h1 := step_staticOK g dt σ i hi
    exact staticOK_comp h1 (ih (step g dt σ) h1.2.1)

/-- C1 (amended): a static body's position is identical before and after any
number of `World.step(dt)` calls, for every `dt`, gravity and configuration;
its velocity is likewise identical provided each velocity component is either
exactly `0` or at least `0.01` in magnitude — the friction snap in dynamic
resolution (the only writer of a static body's state) can only zero a
component whose magnitude is strictly between `0` and `0.01`. -/
theorem C1_static_body_frame (g : Grid) (dt : ℝ) (σ : State) (i : ℤ) (n : ℕ)
    (hs : (σ.store i).isStatic = true) :
    ((stepN g dt n σ).store i).position = (σ.store i).position ∧
    ((stepN g dt n σ).store i).isStatic = true ∧
    (velOK ((σ.store i).velocity) →
      ((stepN g dt n σ).store i).velocity = (σ.store i).velocity) := by
  have h := stepN_staticOK g dt n σ i hs
  exact ⟨h.1, h.2.1, fun hv => h.2.2.resolve_right (fun hn => hn hv)⟩

/-- C1 witness: two steps of the static/dynamic scenario of `c4State`. -/
theorem C1_static_body_frame_witness :
    ((stepN ⟨1, 1, 1⟩ 0.5 2 c4State).store 1).position = (c4State.store 1).position ∧
    ((stepN ⟨1, 1, 1⟩ 0.5 2 c4State).store 1).velocity = (c4State.store 1).velocity := by
  have h := C1_static_body_frame ⟨1, 1, 1⟩ 0.5 c4State 1 2 (by simp [c4State, mkBody])
  exact ⟨h.1, h.2.2 (by simp [c4State, mkBody, velOK])⟩

theorem sqrt_quarter : Real.sqrt 0.25 = 0.5 := by
  rw [show (0.25 : ℝ) = 0.5 ^ 2 by norm_num, Real.sqrt_sq (by norm_num)]

/-- A static unit circle at `(2,2)` with the small velocity `(0.005, 0)` and
a dynamic unit circle at `(3.5, 2)` moving into it with velocity `(-1, 0.5)`,
in a `1 × 1` grid of cell size `10` with zero gravity. -/
noncomputable def c1State : State :=
  { store := fun i => if i = 1 then
      { mkBody 1 (Shape.circle 1) with position := ⟨2, 2⟩, velocity := ⟨0.005, 0⟩, isStatic := true }
      else
      { mkBody 1 (Shape.circle 1) with position := ⟨3.5, 2⟩, velocity := ⟨-1, 0.5⟩ },
    partitions := [[]], worldBodies := [1, 2], collisionPairs := [], contacts := [],
    gravity := ⟨0, 0⟩ }

set_option maxHeartbeats 4000000 in
/-- C1 counterexample: the claim that a static body's velocity is bit-identical
across `step` for **every** configuration is false: in `c1State` the static
body `1` enters `step` with velocity `(0.005, 0)` and leaves it with velocity
`(0, 0)` — the friction phase of dynamic resolution snaps the small component
to exactly `0` with no static guard. -/
theorem C1_counterexample_snap_static_velocity :
    (c1State.store 1).isStatic = true ∧
    (c1State.store 1).velocity.x = 0.005 ∧
    ((step ⟨10, 1, 1⟩ 0.1 c1State).store 1).velocity.x = 0 ∧
    (0.005 : ℝ) ≠ 0 := by
  refine ⟨by simp [c1State, mkBody], by simp [c1State, mkBody], ?_, by norm_num⟩
  have ha1 : |(1 / 2 : ℝ)| = 1 / 2 := abs_of_pos (by norm_num)
  have ha2 : |(203 / 400 : ℝ)| = 203 / 400 := abs_of_pos (by norm_num)
  have ha3 : |(1397 / 4000 : ℝ)| = 1397 / 4000 := abs_of_pos (by norm_num)
  have ha4 : |(1 / 200 : ℝ)| = 1 / 200 := abs_of_pos (by norm_num)
  norm_num [ha1, ha2, ha3, ha4, step, stepBroadPhase, stepNarrowPhase,
    stepResolveStaticCollisions, stepResolveCollisions, stepIntegrate, postStep,
    narrowPair, resolveContact, applyImpulse, applyFriction, applyFrictionImpulse,
    snapSmall, applyCorrection, SpatialGrid.generatePairs, SpatialGrid.addBody,
    SpatialGrid.removeBody, SpatialGrid.queryAABB, getCellsInAABB, worldToCell,
    intRange, setPart, setAdd, updateBody, Body.integrate, Body.sleepTick,
    Body.wakeUp, Vector2.normalize, Vector2.length, Vector2.dot, c1State, mkBody,
    List.range_succ, List.getD, sqrt_225, sqrt_nine, sqrt_four, sqrt_quarter,
    Real.sqrt_one]

end Phys
